import Mathlib

/-!
# thriftlib: assembling a Thrift client or server from a configuration

A shallow embedding of `main.go` (package `thriftlib`).

* Values built by the Apache Thrift runtime (factories, sockets, codecs) are
  symbolic terms named after the Go constructor that builds them.
* Calls into collaborators that can fail or have an effect (`GetTransport`,
  `Open`, `certsetup`, `NewTSSLServerSocket`, `NewTServerSocket`, `Serve`) take
  their outcome from a `World`, and every such call is recorded, in program
  order, in the list of `Call`s returned next to the Go result.
* Go's multiple return values are kept as they are: a tuple of nullable
  values, `none` standing for `nil`.
* `ThriftServer.Start` is a two-thread program; it is embedded as a step
  function on an explicit state, driven by an arbitrary schedule.
-/

/-- Nullable Go value (a pointer, an interface value, the result of a map
lookup): `none` is Go's `nil`, respectively "key absent". -/
abbrev Maybe (α : Type) : Type := Option α

namespace Thriftlib

/-! ## Go errors -/

/-- Go `error` values: `errorString` is what `fmt.Errorf` returns for a
format without `%w` (and what `errors.New` returns), `wrapError` is what
`fmt.Errorf` returns for a format with one `%w` operand. Errors coming from a
collaborator are arbitrary values of this type. -/
inductive GoError where
  | errorString (s : String)
  | wrapError (msg : String) (err : GoError)
  deriving DecidableEq, Repr

/-- Method `Error()` of an error: its message. -/
def GoError.Error : GoError → String
  | .errorString s => s
  | .wrapError msg _ => msg

/-- Function `errors.Unwrap`: the wrapped cause, `nil` when there is none. -/
def GoError.Unwrap : GoError → Maybe GoError
  | .errorString _ => none
  | .wrapError _ err => some err

/-- Call `fmt.Errorf(msg)` for a format `msg` without any verb. -/
def Errorf (msg : String) : GoError := .errorString msg

/-- Call `fmt.Errorf(pre + "%w" + post, err)`: the message has the message of
`err` in the place of `%w`, and `err` is kept as the wrapped cause. -/
def ErrorfW (pre : String) (post : String) (err : GoError) : GoError :=
  .wrapError (pre ++ err.Error ++ post) err

/-! ## Data model -/

/-- Go `type Protocol int`. -/
abbrev Protocol : Type := Int

def BINARY : Protocol := 0
def JSON : Protocol := 1
def SIMPLEJSON : Protocol := 2
def COMPACT : Protocol := 3

/-- Go `type Option struct`. Inside this namespace the name `Option` is this
structure; nullable values are written `Maybe`. -/
structure Option where
  Protocol : Protocol
  Secure : Bool
  Buffered : Bool
  Framed : Bool
  deriving DecidableEq, Repr

/-- Go `tls.Config`, reduced to the field the program sets and the two fields
that carry certificate material (abstract identifiers); the zero value has
verification on, no certificate and no root CA pool. -/
structure TLSConfig where
  InsecureSkipVerify : Bool
  Certificates : List Nat
  RootCAs : Maybe Nat
  deriving DecidableEq, Repr

/-- Go `thrift.TConfiguration`, reduced to the field the program sets. -/
structure TConfiguration where
  TLSConfig : Maybe TLSConfig
  deriving DecidableEq, Repr

/-- Values of interface `thrift.TProtocolFactory`, one constructor per
factory constructor of the runtime. -/
inductive TProtocolFactory where
  | TBinaryProtocolFactory (cfg : Maybe TConfiguration)
  | TJSONProtocolFactory
  | TSimpleJSONProtocolFactory (cfg : Maybe TConfiguration)
  | TCompactProtocolFactory (cfg : Maybe TConfiguration)
  deriving DecidableEq, Repr

/-- Values of interface `thrift.TTransportFactory`; `nil` is the zero value
of the interface, which a lookup of an absent map key yields. -/
inductive TTransportFactory where
  | nil
  | tTransportFactory
  | TBufferedTransportFactory (bufferSize : Int)
  | TFramedTransportFactory (factory : TTransportFactory) (cfg : TConfiguration)
  deriving DecidableEq, Repr

/-- Values of interface `thrift.TTransport`: the two sockets the program
builds, and the two decorators a transport factory may put around one. -/
inductive TTransport where
  | TSocket (hostPort : String) (cfg : TConfiguration)
  | TSSLSocket (hostPort : String) (cfg : TConfiguration)
  | TBufferedTransport (trans : TTransport) (bufferSize : Int)
  | TFramedTransport (trans : TTransport) (cfg : TConfiguration)
  deriving DecidableEq, Repr

/-- Values of interface `thrift.TProtocol`: a codec built by a protocol
factory over a transport. -/
structure TProtocol where
  factory : TProtocolFactory
  trans : TTransport
  deriving DecidableEq, Repr

/-- Go `thrift.TStandardClient`. -/
structure TStandardClient where
  iprot : TProtocol
  oprot : TProtocol
  deriving DecidableEq, Repr

/-- Values of interface `thrift.TServerTransport`. -/
inductive TServerTransport where
  | TServerSocket (listenAddr : String)
  | TSSLServerSocket (listenAddr : String) (cfg : Maybe TLSConfig)
  deriving DecidableEq, Repr

/-- A `thrift.TProcessor` supplied by the caller (abstract). -/
structure TProcessor where
  id : Nat
  deriving DecidableEq, Repr

/-- Go `thrift.TSimpleServer` as built by `NewTSimpleServer4`. -/
structure TSimpleServer where
  processor : TProcessor
  serverTransport : TServerTransport
  transportFactory : TTransportFactory
  protocolFactory : TProtocolFactory
  deriving DecidableEq, Repr

/-- Go `type ThriftServer struct`. -/
structure ThriftServer where
  server : TSimpleServer
  addr : String
  deriving DecidableEq, Repr

/-! ## Constructors of the runtime (no failure, no effect) -/

def NewTBinaryProtocolFactoryConf (cfg : Maybe TConfiguration) : TProtocolFactory :=
  .TBinaryProtocolFactory cfg

def NewTJSONProtocolFactory : TProtocolFactory := .TJSONProtocolFactory

def NewTSimpleJSONProtocolFactoryConf (cfg : Maybe TConfiguration) : TProtocolFactory :=
  .TSimpleJSONProtocolFactory cfg

def NewTCompactProtocolFactoryConf (cfg : Maybe TConfiguration) : TProtocolFactory :=
  .TCompactProtocolFactory cfg

def NewTBufferedTransportFactory (bufferSize : Int) : TTransportFactory :=
  .TBufferedTransportFactory bufferSize

def NewTTransportFactory : TTransportFactory := .tTransportFactory

def NewTFramedTransportFactoryConf (factory : TTransportFactory) (cfg : TConfiguration) :
    TTransportFactory :=
  .TFramedTransportFactory factory cfg

def NewTSocketConf (hostPort : String) (cfg : TConfiguration) : TTransport :=
  .TSocket hostPort cfg

def NewTSSLSocketConf (hostPort : String) (cfg : TConfiguration) : TTransport :=
  .TSSLSocket hostPort cfg

/-- Method `GetProtocol` of a protocol factory. -/
def GetProtocol (f : TProtocolFactory) (t : TTransport) : TProtocol := ⟨f, t⟩

def NewTStandardClient (iprot oprot : TProtocol) : TStandardClient := ⟨iprot, oprot⟩

def NewTSimpleServer4 (processor : TProcessor) (serverTransport : TServerTransport)
    (transportFactory : TTransportFactory) (protocolFactory : TProtocolFactory) :
    TSimpleServer :=
  ⟨processor, serverTransport, transportFactory, protocolFactory⟩

/-! ## Collaborators that can fail -/

/-- Outcomes of the calls whose result the program cannot determine. A Go
result pair `(v, err)` is `.ok v` when `err == nil` and `.error err`
otherwise; `Open` and `Serve` return only an error. `certsetup` is a function
of this package that is not part of `main.go`; its three results are the server
TLS configuration, the client TLS configuration and the CA certificate in PEM
form. `NewTSSLServerSocket` and `NewTServerSocket` are the constructors of the
listening socket: in the Thrift runtime they resolve the listen address and do
not bind it; the port is bound by `Listen`, which `Serve` calls first, so a
port that cannot be bound is an error returned by `Serve`. -/
structure World where
  GetTransport : TTransportFactory → TTransport → Except GoError TTransport
  Open : TTransport → Maybe GoError
  certsetup : Except GoError (Maybe TLSConfig × Maybe TLSConfig × List Nat)
  NewTSSLServerSocket : String → Maybe TLSConfig → Except GoError TServerTransport
  NewTServerSocket : String → Except GoError TServerTransport
  Serve : TSimpleServer → Maybe GoError

/-- Calls into collaborators, as recorded in program order. `Close` is the
method of the `io.Closer` handed to the caller. -/
inductive Call where
  | GetTransport (f : TTransportFactory) (t : TTransport)
  | Open (t : TTransport)
  | GetProtocol (f : TProtocolFactory) (t : TTransport)
  | Close (t : TTransport)
  | certsetup
  | NewTSSLServerSocket (listenAddr : String) (cfg : Maybe TLSConfig)
  | NewTServerSocket (listenAddr : String)
  deriving DecidableEq, Repr

/-! ## Package-level maps and `init` -/

/-- A Go map as the list of its assignments, most recent first. -/
abbrev GoMap (κ ν : Type) : Type := List (κ × ν)

/-- Go `make(map[K]V)`. -/
def GoMap.make {κ ν : Type} : GoMap κ ν := []

/-- Go `m[k] = v`. -/
def GoMap.set {κ ν : Type} (m : GoMap κ ν) (k : κ) (v : ν) : GoMap κ ν := (k, v) :: m

/-- Go `v, ok := m[k]`: `none` when `ok` is false. -/
def GoMap.get {κ ν : Type} [DecidableEq κ] (m : GoMap κ ν) (k : κ) : Maybe ν :=
  match m with
  | [] => none
  | (k1, v) :: rest => if k = k1 then some v else GoMap.get rest k

/-- The package-level variables. -/
structure Globals where
  protocolFactoryMap : GoMap Protocol TProtocolFactory
  bufferedTransportFactoryMap : GoMap Bool TTransportFactory

/-- The `var (...)` block: both maps are made empty. -/
def varDecls : Globals :=
  { protocolFactoryMap := GoMap.make, bufferedTransportFactoryMap := GoMap.make }

/-- Go `func init()`. -/
def init (g : Globals) : Globals :=
  let p := g.protocolFactoryMap
  let p := p.set BINARY (NewTBinaryProtocolFactoryConf none)
  let p := p.set JSON NewTJSONProtocolFactory
  let p := p.set SIMPLEJSON (NewTSimpleJSONProtocolFactoryConf none)
  let p := p.set COMPACT (NewTCompactProtocolFactoryConf none)
  let b := g.bufferedTransportFactoryMap
  let b := b.set true (NewTBufferedTransportFactory 8192)
  let b := b.set false NewTTransportFactory
  { protocolFactoryMap := p, bufferedTransportFactoryMap := b }

/-- Map `protocolFactoryMap` as every function of the package sees it: after
the variable declarations and `init` have run. -/
def protocolFactoryMap : GoMap Protocol TProtocolFactory :=
  (init varDecls).protocolFactoryMap

/-- Map `bufferedTransportFactoryMap` after `init`. -/
def bufferedTransportFactoryMap : GoMap Bool TTransportFactory :=
  (init varDecls).bufferedTransportFactoryMap

/-- Go `m[k]` in a value context, for a map of transport factories: the zero
value `nil` when the key is absent. -/
def GoMap.index {κ : Type} [DecidableEq κ] (m : GoMap κ TTransportFactory) (k : κ) :
    TTransportFactory :=
  match m.get k with
  | some v => v
  | none => .nil

/-! ## The assemblers -/

/-- Go `func NewDefaultOption() *Option`. -/
def NewDefaultOption : Option :=
  { Protocol := BINARY, Secure := false, Buffered := true, Framed := false }

/-- What `NewThriftClient` returns, `(client, closer, err)`, and the calls it
made. -/
structure ClientResult where
  client : Maybe TStandardClient
  closer : Maybe TTransport
  err : Maybe GoError
  calls : List Call
  deriving DecidableEq, Repr

/-- Go `func NewThriftClient(addr string, opt *Option)`. -/
def NewThriftClient (w : World) (addr : String) (opt : Option) : ClientResult :=
  match protocolFactoryMap.get opt.Protocol with
  | none => ⟨none, none, some (Errorf "unknown protocol"), []⟩
  | some protocolFactory =>
    let cfg : TConfiguration :=
      { TLSConfig := some { InsecureSkipVerify := true, Certificates := [], RootCAs := none } }
    let transportFactory := bufferedTransportFactoryMap.index opt.Buffered
    let transportFactory :=
      if opt.Framed then NewTFramedTransportFactoryConf transportFactory cfg
      else transportFactory
    let transport :=
      if opt.Secure then NewTSSLSocketConf addr cfg else NewTSocketConf addr cfg
    let c1 := [Call.GetTransport transportFactory transport]
    match w.GetTransport transportFactory transport with
    | .error err =>
      ⟨none, none, some (ErrorfW "failed to get transportFactory " " n" err), c1⟩
    | .ok transport =>
      let c2 := c1 ++ [Call.Open transport]
      match w.Open transport with
      | some err => ⟨none, none, some (ErrorfW "failed to Open transport: " "" err), c2⟩
      | none =>
        let iprot := GetProtocol protocolFactory transport
        let oprot := GetProtocol protocolFactory transport
        ⟨some (NewTStandardClient iprot oprot), some transport, none,
          c2 ++ [Call.GetProtocol protocolFactory transport,
                 Call.GetProtocol protocolFactory transport]⟩

/-- What `NewThriftServer` returns, `(server, err)`, and the calls it made. -/
structure ServerResult where
  server : Maybe ThriftServer
  err : Maybe GoError
  calls : List Call
  deriving DecidableEq, Repr

/-- Go `func NewThriftServer(addr string, opt *Option, processor thrift.TProcessor)`. -/
def NewThriftServer (w : World) (addr : String) (opt : Option) (processor : TProcessor) :
    ServerResult :=
  match protocolFactoryMap.get opt.Protocol with
  | none => ⟨none, some (Errorf "unknown protocol"), []⟩
  | some protocolFactory =>
    let cfg : TConfiguration :=
      { TLSConfig := some { InsecureSkipVerify := true, Certificates := [], RootCAs := none } }
    let transportFactory := bufferedTransportFactoryMap.index opt.Buffered
    let transportFactory :=
      if opt.Framed then NewTFramedTransportFactoryConf transportFactory cfg
      else transportFactory
    if opt.Secure then
      let c1 := [Call.certsetup]
      match w.certsetup with
      | .error err => ⟨none, some (ErrorfW "failed to create tls certificate " "" err), c1⟩
      | .ok (serverTLSConf, _clientTLSConf, _caPEM) =>
        let c2 := c1 ++ [Call.NewTSSLServerSocket addr serverTLSConf]
        match w.NewTSSLServerSocket addr serverTLSConf with
        | .error err => ⟨none, some (ErrorfW "failed to create tls certificate " "" err), c2⟩
        | .ok transport =>
          let server := NewTSimpleServer4 processor transport transportFactory protocolFactory
          ⟨some { server := server, addr := addr }, none, c2⟩
    else
      let c1 := [Call.NewTServerSocket addr]
      match w.NewTServerSocket addr with
      | .error err => ⟨none, some (ErrorfW "failed to create thrift server " "" err), c1⟩
      | .ok transport =>
        let server := NewTSimpleServer4 processor transport transportFactory protocolFactory
        ⟨some { server := server, addr := addr }, none, c1⟩

/-! ## `ThriftServer.Start` -/

/-- A Go channel of errors: capacity, buffered values (oldest first), and
whether it has been closed. -/
structure Chan where
  cap : Nat
  buf : List GoError
  closed : Bool
  deriving DecidableEq, Repr

/-- What an execution of `Start` does, in the order it happens. -/
inductive Event where
  | makeChan (cap : Nat)
  | go
  | returned
  | print (s : String)
  | serveCall
  | serveReturn (err : Maybe GoError)
  | send (err : GoError)
  | close
  deriving DecidableEq, Repr

/-- Program points of the body of `Start`. -/
inductive MainPc where
  | atMake
  | atGo
  | atReturn
  | returned
  deriving DecidableEq, Repr

/-- Program points of the function literal started by the `go` statement;
`inServe` is the task blocked inside `server.server.Serve()`. -/
inductive TaskPc where
  | atPrintf
  | atServe
  | inServe
  | atIfErr
  | atPrintln
  | atClose
  | done
  deriving DecidableEq, Repr

/-- State of an execution of `Start`: the two program counters (`taskPc` is
`none` until the `go` statement has run), the task's local `err`, the channel
`returnCh`, the values the caller has received from the channel so far (oldest
first), whether a goroutine has panicked, and the events so far. -/
structure StartState where
  mainPc : MainPc
  taskPc : Maybe TaskPc
  err : Maybe GoError
  returnCh : Maybe Chan
  received : List GoError
  panicked : Bool
  trace : List Event
  deriving DecidableEq, Repr

/-- Who takes the next step: the goroutine that called `Start`, the background
task, the runtime letting the pending `Serve` call return, or the caller
receiving from the channel it was handed. -/
inductive Actor where
  | main
  | task
  | runtime
  | caller
  deriving DecidableEq, Repr

/-- State in which `Start` is entered. -/
def StartState.entry : StartState :=
  { mainPc := .atMake, taskPc := none, err := none, returnCh := none, received := [],
    panicked := false, trace := [] }

/-- Line written by `fmt.Printf("Starting Thrift server... on %s \n", server.addr)`. -/
def startLine (addr : String) : String := "Starting Thrift server... on " ++ addr ++ " \n"

/-- Line written by `fmt.Println("Stopping Thrift server")`. -/
def stopLine : String := "Stopping Thrift server\n"

/-- One step of `func (server *ThriftServer) Start() chan error` by actor `a`;
`none` when `a` cannot move (it is blocked, has finished, or has not started).
A send on a full channel blocks; a send on, or a close of, a closed channel
panics. A receive takes the oldest buffered value; on an empty channel it
blocks, unless the channel is closed, in which case it yields no value. -/
def step (w : World) (server : ThriftServer) (a : Actor) (s : StartState) : Maybe StartState :=
  if s.panicked then none else
  match a with
  | .main =>
    match s.mainPc with
    | .atMake =>
      some { s with mainPc := .atGo, returnCh := some ⟨1, [], false⟩,
                    trace := s.trace ++ [.makeChan 1] }
    | .atGo => some { s with mainPc := .atReturn, taskPc := some .atPrintf,
                             trace := s.trace ++ [.go] }
    | .atReturn => some { s with mainPc := .returned, trace := s.trace ++ [.returned] }
    | .returned => none
  | .task =>
    match s.taskPc, s.returnCh with
    | some .atPrintf, _ =>
      some { s with taskPc := some .atServe, trace := s.trace ++ [.print (startLine server.addr)] }
    | some .atServe, _ => some { s with taskPc := some .inServe, trace := s.trace ++ [.serveCall] }
    | some .atIfErr, some ch =>
      match s.err with
      | none => some { s with taskPc := some .atPrintln }
      | some err =>
        if ch.closed then some { s with panicked := true }
        else if ch.buf.length < ch.cap then
          some { s with taskPc := some .atPrintln, returnCh := some { ch with buf := ch.buf ++ [err] },
                        trace := s.trace ++ [.send err] }
        else none
    | some .atPrintln, _ =>
      some { s with taskPc := some .atClose, trace := s.trace ++ [.print stopLine] }
    | some .atClose, some ch =>
      if ch.closed then some { s with panicked := true }
      else some { s with taskPc := some .done, returnCh := some { ch with closed := true },
                         trace := s.trace ++ [.close] }
    | _, _ => none
  | .runtime =>
    match s.taskPc with
    | some .inServe =>
      some { s with taskPc := some .atIfErr, err := w.Serve server.server,
                    trace := s.trace ++ [.serveReturn (w.Serve server.server)] }
    | _ => none
  | .caller =>
    match s.mainPc, s.returnCh with
    | .returned, some ch =>
      match ch.buf with
      | v :: rest =>
        some { s with returnCh := some { ch with buf := rest }, received := s.received ++ [v] }
      | [] => if ch.closed then some s else none
    | _, _ => none

/-- Execution under a schedule: each actor in turn takes a step if it can. -/
def exec (w : World) (server : ThriftServer) : List Actor → StartState → StartState
  | [], s => s
  | a :: rest, s =>
    match step w server a s with
    | some s1 => exec w server rest s1
    | none => exec w server rest s

/-- Events of the background task. -/
def Event.ofTask : Event → Bool
  | .print _ => true
  | .serveCall => true
  | .serveReturn _ => true
  | .send _ => true
  | .close => true
  | _ => false

/-- The events of the background task among `tr`, in order. -/
def taskEvents (tr : List Event) : List Event := tr.filter Event.ofTask

/-! ## Spec-side definitions -/

/-- The Thrift configuration both assemblers build: a TLS configuration whose
only set field is `InsecureSkipVerify: true`. -/
def skipVerifyCfg : TConfiguration :=
  { TLSConfig := some { InsecureSkipVerify := true, Certificates := [], RootCAs := none } }

/-- Spec-side definition of the transport chain builder (spec §4.2), to be
compared with what the assemblers compose: the 8192-byte buffering factory or
the identity factory, and the framing factory around it when `framed`. -/
def specChain (buffered framed : Bool) : TTransportFactory :=
  let buffering :=
    if buffered then TTransportFactory.TBufferedTransportFactory 8192
    else TTransportFactory.tTransportFactory
  if framed then TTransportFactory.TFramedTransportFactory buffering skipVerifyCfg
  else buffering

/-- Spec-side definition of the client's base transport (spec §4.4, step 3). -/
def specBase (addr : String) (secure : Bool) : TTransport :=
  if secure then TTransport.TSSLSocket addr skipVerifyCfg
  else TTransport.TSocket addr skipVerifyCfg

/-! ## Bookkeeping for executions of `Start` -/

/-- Everything the background task does when it runs to its end, in order:
the start line, the call of `Serve`, its return, the send of the error when
there is one, the stop line, the close of the channel. -/
def taskProgram (w : World) (server : ThriftServer) : List Event :=
  [.print (startLine server.addr), .serveCall, .serveReturn (w.Serve server.server)] ++
    (match w.Serve server.server with
     | some err => [.send err]
     | none => []) ++
    [.print stopLine, .close]

/-- Number of events of `taskProgram` that lie behind the task at a program
point. -/
def taskProgress (w : World) (server : ThriftServer) : Maybe TaskPc → Nat
  | none => 0
  | some .atPrintf => 0
  | some .atServe => 1
  | some .inServe => 2
  | some .atIfErr => 3
  | some .atPrintln => 3 + (w.Serve server.server).toList.length
  | some .atClose => 4 + (w.Serve server.server).toList.length
  | some .done => 5 + (w.Serve server.server).toList.length

/-- Whether `Serve` has returned when the task stands at a program point. -/
def afterServe : Maybe TaskPc → Bool
  | some .atIfErr => true
  | some .atPrintln => true
  | some .atClose => true
  | some .done => true
  | _ => false

/-- Whether the `if err != nil` statement lies behind the task. -/
def afterIfErr : Maybe TaskPc → Bool
  | some .atPrintln => true
  | some .atClose => true
  | some .done => true
  | _ => false

/-- Invariant of every execution of `Start`. -/
def Inv (w : World) (server : ThriftServer) (s : StartState) : Prop :=
  s.panicked = false ∧
  taskEvents s.trace = (taskProgram w server).take (taskProgress w server s.taskPc) ∧
  s.err = (if afterServe s.taskPc then w.Serve server.server else none) ∧
  (s.taskPc = none ↔ (s.mainPc = .atMake ∨ s.mainPc = .atGo)) ∧
  (s.mainPc = .atMake → s.returnCh = none ∧ s.received = []) ∧
  (s.mainPc ≠ .atMake →
    ∃ buf, s.returnCh = some ⟨1, buf, decide (s.taskPc = some .done)⟩ ∧
      s.received ++ buf = (if afterIfErr s.taskPc then (w.Serve server.server).toList else []))

/-! ## The wrapping done by the runtime's factories -/

/-- What `GetTransport` of the factories of the Thrift runtime returns: the
identity factory returns the transport it is given, the buffering factory puts
a buffer around it, and the framing factory puts a frame around what its inner
factory returns. (`nil` has no method; it is never passed.) -/
def wrapBy : TTransportFactory → TTransport → TTransport
  | .nil, t => t
  | .tTransportFactory, t => t
  | .TBufferedTransportFactory n, t => .TBufferedTransport t n
  | .TFramedTransportFactory f cfg, t => .TFramedTransport (wrapBy f t) cfg

/-- Worlds whose `GetTransport` wraps as the factories of the Thrift runtime
do, and never fails. -/
def runtimeWrapping (w : World) : Prop :=
  ∀ f t, w.GetTransport f t = .ok (wrapBy f t)

/-! ## Sample inputs -/

/-- A world in which every collaborator succeeds and `Serve` ends without an
error. -/
def calmWorld : World :=
  { GetTransport := fun f t => .ok (wrapBy f t)
    Open := fun _ => none
    certsetup := .ok (some ⟨false, [1], none⟩, some ⟨false, [], some 2⟩, [45, 45])
    NewTSSLServerSocket := fun a c => .ok (.TSSLServerSocket a c)
    NewTServerSocket := fun a => .ok (.TServerSocket a)
    Serve := fun _ => none }

/-- A world in which every collaborator fails. -/
def stormWorld : World :=
  { GetTransport := fun _ _ => .error (.errorString "wrap refused")
    Open := fun _ => some (.errorString "connection refused")
    certsetup := .error (.errorString "no entropy")
    NewTSSLServerSocket := fun _ _ => .error (.errorString "missing port in address")
    NewTServerSocket := fun _ => .error (.errorString "missing port in address")
    Serve := fun _ => some (.errorString "accept failed") }

/-- A world in which wrapping succeeds and `Open` fails. -/
def unreachableWorld : World :=
  { calmWorld with Open := fun _ => some (.errorString "connection refused") }

/-- A world in which certificates are provisioned and the listen address
cannot be resolved, so that the constructors of the listening socket fail. -/
def badAddressWorld : World :=
  { calmWorld with
    NewTSSLServerSocket := fun _ _ => .error (.errorString "missing port in address")
    NewTServerSocket := fun _ => .error (.errorString "missing port in address") }

/-- A world in which the port is taken by another listener: the listen address
resolves, so the constructors of the listening socket succeed, and the bind
fails inside `Serve`. -/
def portTakenWorld : World :=
  { calmWorld with Serve := fun _ => some (.errorString "bind: address already in use") }

/-- A secure, framed, unbuffered configuration using the compact protocol. -/
def secureOption : Option :=
  { Protocol := COMPACT, Secure := true, Buffered := false, Framed := true }

/-- A server handle as `NewThriftServer` builds it from the default option. -/
def sampleServer : ThriftServer :=
  ⟨NewTSimpleServer4 ⟨0⟩ (.TServerSocket "127.0.0.1:9090") (specChain true false)
    (.TBinaryProtocolFactory none), "127.0.0.1:9090"⟩

/-! ## Lemmas on the registry and the assemblers -/

theorem get_protocol (p : Int) :
    protocolFactoryMap.get p =
      if p = 3 then some (.TCompactProtocolFactory none)
      else if p = 2 then some (.TSimpleJSONProtocolFactory none)
      else if p = 1 then some .TJSONProtocolFactory
      else if p = 0 then some (.TBinaryProtocolFactory none)
      else none := by
  simp [protocolFactoryMap, init, varDecls, GoMap.set, GoMap.get, GoMap.make, BINARY, JSON,
    SIMPLEJSON, COMPACT, NewTBinaryProtocolFactoryConf, NewTJSONProtocolFactory,
    NewTSimpleJSONProtocolFactoryConf, NewTCompactProtocolFactoryConf]

theorem get_protocol_none (p : Int) :
    protocolFactoryMap.get p = none ↔ (p < 0 ∨ 3 < p) := by
  rw [get_protocol]
  constructor
  · intro h
    split_ifs at h
    omega
  · intro h
    have h3 : p ≠ 3 := by omega
    have h2 : p ≠ 2 := by omega
    have h1 : p ≠ 1 := by omega
    have h0 : p ≠ 0 := by omega
    simp [h3, h2, h1, h0]

theorem index_buffered (b : Bool) :
    bufferedTransportFactoryMap.index b =
      if b then TTransportFactory.TBufferedTransportFactory 8192
      else TTransportFactory.tTransportFactory := by
  cases b <;> rfl

theorem errorfW_message_ne (post : String) (e : GoError) :
    (ErrorfW "failed to get transportFactory " post e).Error ≠ "unknown protocol" ∧
    (ErrorfW "failed to Open transport: " post e).Error ≠ "unknown protocol" ∧
    (ErrorfW "failed to create tls certificate " post e).Error ≠ "unknown protocol" ∧
    (ErrorfW "failed to create thrift server " post e).Error ≠ "unknown protocol" := by
  refine ⟨?_, ?_, ?_, ?_⟩ <;>
  · intro h
    have := congrArg String.data h
    simp [ErrorfW, GoError.Error, String.data_append] at this

/-- The four ways `NewThriftClient` can run, with everything it returns. -/
theorem client_cases (w : World) (addr : String) (opt : Option) :
    (protocolFactoryMap.get opt.Protocol = none ∧
      NewThriftClient w addr opt = ⟨none, none, some (Errorf "unknown protocol"), []⟩) ∨
    (∃ pf e, protocolFactoryMap.get opt.Protocol = some pf ∧
      w.GetTransport (specChain opt.Buffered opt.Framed) (specBase addr opt.Secure) = .error e ∧
      NewThriftClient w addr opt =
        ⟨none, none, some (ErrorfW "failed to get transportFactory " " n" e),
          [Call.GetTransport (specChain opt.Buffered opt.Framed) (specBase addr opt.Secure)]⟩) ∨
    (∃ pf t e, protocolFactoryMap.get opt.Protocol = some pf ∧
      w.GetTransport (specChain opt.Buffered opt.Framed) (specBase addr opt.Secure) = .ok t ∧
      w.Open t = some e ∧
      NewThriftClient w addr opt =
        ⟨none, none, some (ErrorfW "failed to Open transport: " "" e),
          [Call.GetTransport (specChain opt.Buffered opt.Framed) (specBase addr opt.Secure),
           Call.Open t]⟩) ∨
    (∃ pf t, protocolFactoryMap.get opt.Protocol = some pf ∧
      w.GetTransport (specChain opt.Buffered opt.Framed) (specBase addr opt.Secure) = .ok t ∧
      w.Open t = none ∧
      NewThriftClient w addr opt =
        ⟨some (NewTStandardClient (GetProtocol pf t) (GetProtocol pf t)), some t, none,
          [Call.GetTransport (specChain opt.Buffered opt.Framed) (specBase addr opt.Secure),
           Call.Open t, Call.GetProtocol pf t, Call.GetProtocol pf t]⟩) := by
  have hF : (if opt.Framed = true then
        NewTFramedTransportFactoryConf (bufferedTransportFactoryMap.index opt.Buffered)
          skipVerifyCfg
      else bufferedTransportFactoryMap.index opt.Buffered) = specChain opt.Buffered opt.Framed := by
    rw [index_buffered]; rfl
  have hB : (if opt.Secure = true then NewTSSLSocketConf addr skipVerifyCfg
      else NewTSocketConf addr skipVerifyCfg) = specBase addr opt.Secure := rfl
  simp only [NewThriftClient]
  rw [show ({ TLSConfig := some { InsecureSkipVerify := true, Certificates := [], RootCAs := none } }
      : TConfiguration) = skipVerifyCfg from rfl]
  cases h : protocolFactoryMap.get opt.Protocol with
  | none => simp
  | some pf =>
    simp only [hF, hB]
    cases hg : w.GetTransport (specChain opt.Buffered opt.Framed) (specBase addr opt.Secure) with
    | error e => simp
    | ok t =>
      cases ho : w.Open t with
      | some e => simp [ho]
      | none => simp [ho]

/-- The six ways `NewThriftServer` can run, with everything it returns. -/
theorem server_cases (w : World) (addr : String) (opt : Option) (processor : TProcessor) :
    (protocolFactoryMap.get opt.Protocol = none ∧
      NewThriftServer w addr opt processor = ⟨none, some (Errorf "unknown protocol"), []⟩) ∨
    (∃ pf e, protocolFactoryMap.get opt.Protocol = some pf ∧ opt.Secure = true ∧
      w.certsetup = .error e ∧
      NewThriftServer w addr opt processor =
        ⟨none, some (ErrorfW "failed to create tls certificate " "" e), [Call.certsetup]⟩) ∨
    (∃ pf sc cc ca e, protocolFactoryMap.get opt.Protocol = some pf ∧ opt.Secure = true ∧
      w.certsetup = .ok (sc, cc, ca) ∧ w.NewTSSLServerSocket addr sc = .error e ∧
      NewThriftServer w addr opt processor =
        ⟨none, some (ErrorfW "failed to create tls certificate " "" e),
          [Call.certsetup, Call.NewTSSLServerSocket addr sc]⟩) ∨
    (∃ pf sc cc ca t, protocolFactoryMap.get opt.Protocol = some pf ∧ opt.Secure = true ∧
      w.certsetup = .ok (sc, cc, ca) ∧ w.NewTSSLServerSocket addr sc = .ok t ∧
      NewThriftServer w addr opt processor =
        ⟨some ⟨NewTSimpleServer4 processor t (specChain opt.Buffered opt.Framed) pf, addr⟩, none,
          [Call.certsetup, Call.NewTSSLServerSocket addr sc]⟩) ∨
    (∃ pf e, protocolFactoryMap.get opt.Protocol = some pf ∧ opt.Secure = false ∧
      w.NewTServerSocket addr = .error e ∧
      NewThriftServer w addr opt processor =
        ⟨none, some (ErrorfW "failed to create thrift server " "" e),
          [Call.NewTServerSocket addr]⟩) ∨
    (∃ pf t, protocolFactoryMap.get opt.Protocol = some pf ∧ opt.Secure = false ∧
      w.NewTServerSocket addr = .ok t ∧
      NewThriftServer w addr opt processor =
        ⟨some ⟨NewTSimpleServer4 processor t (specChain opt.Buffered opt.Framed) pf, addr⟩, none,
          [Call.NewTServerSocket addr]⟩) := by
  have hF : (if opt.Framed = true then
        NewTFramedTransportFactoryConf (bufferedTransportFactoryMap.index opt.Buffered)
          skipVerifyCfg
      else bufferedTransportFactoryMap.index opt.Buffered) = specChain opt.Buffered opt.Framed := by
    rw [index_buffered]; rfl
  simp only [NewThriftServer]
  rw [show ({ TLSConfig := some { InsecureSkipVerify := true, Certificates := [], RootCAs := none } }
      : TConfiguration) = skipVerifyCfg from rfl]
  cases h : protocolFactoryMap.get opt.Protocol with
  | none => simp
  | some pf =>
    simp only [hF]
    cases hs : opt.Secure with
    | true =>
      cases hc : w.certsetup with
      | error e => simp
      | ok v =>
        obtain ⟨sc, cc, ca⟩ := v
        cases hn : w.NewTSSLServerSocket addr sc with
        | error e => simp [hn]
        | ok t => simp [hn]
    | false =>
      cases hn : w.NewTServerSocket addr with
      | error e => simp
      | ok t => simp

/-! ## Lemmas on executions of `Start` -/

theorem taskEvents_append (tr : List Event) (e : Event) :
    taskEvents (tr ++ [e]) = taskEvents tr ++ (if e.ofTask then [e] else []) := by
  simp [taskEvents, List.filter_append, List.filter_cons]

theorem inv_entry (w : World) (server : ThriftServer) : Inv w server StartState.entry := by
  simp [Inv, StartState.entry, taskEvents, taskProgress, afterServe]

theorem step_inv (w : World) (server : ThriftServer) (a : Actor) (s s1 : StartState)
    (hinv : Inv w server s) (hstep : step w server a s = some s1) : Inv w server s1 := by
  obtain ⟨mpc, tpc, err, ch, rcv, pan, tr⟩ := s
  obtain ⟨hp, htr, herr, h0, h1, h2⟩ := hinv
  simp only at hp htr herr h0 h1 h2
  subst hp
  cases a with
  | main =>
    cases mpc with
    | atMake =>
      simp [step] at hstep
      subst hstep
      simp at h0 h1
      simp [Inv, taskEvents_append, Event.ofTask, htr, h0, h1, herr, afterIfErr]
    | atGo =>
      simp [step] at hstep
      subst hstep
      simp at h0 h2
      subst h0
      simp [Inv, taskEvents_append, Event.ofTask, htr, h2, taskProgress, afterServe] at herr ⊢
      exact ⟨herr, h2⟩
    | atReturn =>
      simp [step] at hstep
      subst hstep
      simp at h0 h2
      simp [Inv, taskEvents_append, Event.ofTask, htr, h0, herr]
      exact h2
    | returned => simp [step] at hstep
  | task =>
    cases tpc with
    | none => simp [step] at hstep
    | some pc =>
      have hm : mpc ≠ .atMake := by
        intro h
        simp [h] at h0
      have hg : mpc ≠ .atGo := by
        intro h
        simp [h] at h0
      obtain ⟨buf, hch, hbuf⟩ := h2 hm
      clear h1 h2
      rw [hch] at hstep
      clear hch
      cases pc with
      | atPrintf =>
        simp [step] at hstep
        subst hstep
        simp [Inv, taskEvents_append, Event.ofTask, htr, taskProgress, afterServe, afterIfErr,
          taskProgram, hm, hg] at herr hbuf ⊢
        exact ⟨herr, hbuf⟩
      | atServe =>
        simp [step] at hstep
        subst hstep
        simp [Inv, taskEvents_append, Event.ofTask, htr, taskProgress, afterServe, afterIfErr,
          taskProgram, hm, hg] at herr hbuf ⊢
        exact ⟨herr, hbuf⟩
      | inServe => simp [step] at hstep
      | atIfErr =>
        simp [afterServe, afterIfErr] at herr hbuf
        obtain ⟨hr, hb⟩ := hbuf
        subst hr hb
        cases hs : w.Serve server.server with
        | none =>
          rw [hs] at herr
          subst herr
          simp [step] at hstep
          subst hstep
          simp [Inv, htr, taskProgress, afterServe, afterIfErr, taskProgram, hm, hg, hs]
        | some e =>
          rw [hs] at herr
          subst herr
          simp [step] at hstep
          subst hstep
          simp [Inv, taskEvents_append, Event.ofTask, htr, taskProgress, afterServe, afterIfErr,
            taskProgram, hm, hg, hs]
      | atPrintln =>
        simp [step] at hstep
        subst hstep
        simp [afterServe, afterIfErr] at herr hbuf
        cases hs : w.Serve server.server <;> simp [hs] at hbuf <;>
        simp [Inv, taskEvents_append, Event.ofTask, htr, taskProgress, afterServe, afterIfErr,
          taskProgram, hm, hg, hs, herr] <;> exact hbuf
      | atClose =>
        simp [step] at hstep
        subst hstep
        simp [afterServe, afterIfErr] at herr hbuf
        cases hs : w.Serve server.server <;> simp [hs] at hbuf <;>
        simp [Inv, taskEvents_append, Event.ofTask, htr, taskProgress, afterServe, afterIfErr,
          taskProgram, hm, hg, hs, herr] <;> exact hbuf
      | done => simp [step] at hstep
  | runtime =>
    cases tpc with
    | none => simp [step] at hstep
    | some pc =>
      have hm : mpc ≠ .atMake := by
        intro h
        simp [h] at h0
      have hg : mpc ≠ .atGo := by
        intro h
        simp [h] at h0
      obtain ⟨buf, hch, hbuf⟩ := h2 hm
      cases pc <;> simp [step] at hstep
      subst hstep
      simp [afterServe, afterIfErr] at herr hbuf
      simp [Inv, taskEvents_append, Event.ofTask, htr, taskProgress, afterServe, afterIfErr,
          taskProgram, hm, hg, hch, hbuf]
  | caller =>
    cases mpc <;> simp [step] at hstep
    obtain ⟨buf, hch, hbuf⟩ := h2 (by simp)
    rw [hch] at hstep
    simp at h0
    cases buf with
    | nil =>
      simp at hstep
      rw [← hstep.2]
      simp at hbuf
      simp [Inv, htr, herr, h0, hch]
      exact hbuf
    | cons e rest =>
      simp at hstep
      subst hstep
      simp [Inv, htr, herr, h0]
      simpa using hbuf

theorem exec_inv (w : World) (server : ThriftServer) (sched : List Actor) (s : StartState)
    (hinv : Inv w server s) : Inv w server (exec w server sched s) := by
  induction sched generalizing s with
  | nil => exact hinv
  | cons a rest ih =>
    simp only [exec]
    cases h : step w server a s with
    | none => exact ih s hinv
    | some s1 => exact ih s1 (step_inv w server a s s1 hinv h)

theorem taskProgram_cases (w : World) (server : ThriftServer) :
    taskProgram w server =
      match w.Serve server.server with
      | some err =>
        [.print (startLine server.addr), .serveCall, .serveReturn (some err), .send err,
          .print stopLine, .close]
      | none =>
        [.print (startLine server.addr), .serveCall, .serveReturn none, .print stopLine, .close] := by
  cases h : w.Serve server.server <;> simp [taskProgram, h]

theorem count_close_taskProgram (w : World) (server : ThriftServer) :
    (taskProgram w server).count Event.close = 1 := by
  rw [taskProgram_cases]
  cases w.Serve server.server <;> simp [List.count_cons]

theorem count_close_trace (tr : List Event) :
    tr.count Event.close = (taskEvents tr).count Event.close := by
  unfold taskEvents
  rw [List.count_filter]
  rfl

theorem count_close_le (w : World) (server : ThriftServer) (s : StartState)
    (hinv : Inv w server s) : s.trace.count Event.close ≤ 1 := by
  rw [count_close_trace, hinv.2.1, ← count_close_taskProgram w server]
  exact (List.take_sublist _ _).count_le _

theorem taskProgress_done (w : World) (server : ThriftServer) :
    (taskProgram w server).take (taskProgress w server (some .done)) = taskProgram w server := by
  cases h : w.Serve server.server <;> simp [taskProgram, taskProgress, h]

theorem finish (w : World) (server : ThriftServer) (s : StartState) (hinv : Inv w server s) :
    (exec w server [.main, .main, .task, .task, .runtime, .task, .task, .task] s).taskPc =
      some .done := by
  obtain ⟨mpc, tpc, err, ch, rcv, pan, tr⟩ := s
  obtain ⟨hp, htr, herr, h0, h1, h2⟩ := hinv
  simp only at hp htr herr h0 h1 h2
  subst hp
  cases hs : w.Serve server.server with
  | none =>
    cases mpc with
    | atMake =>
      simp at h0 h1
      obtain ⟨hc, hr⟩ := h1
      subst h0 hc hr
      simp [exec, step, hs]
    | atGo =>
      simp at h0 h2
      subst h0
      obtain ⟨buf, hch, hbuf⟩ := h2
      simp [afterIfErr] at hbuf
      simp [exec, step, hs, hch, hbuf]
    | atReturn =>
      simp at h0 h2
      obtain ⟨buf, hch, hbuf⟩ := h2
      cases tpc with
      | none => simp at h0
      | some pc =>
        cases pc <;> simp [afterServe, afterIfErr, hs] at herr hbuf <;>
          simp [exec, step, hs, hch, herr, hbuf]
    | returned =>
      simp at h0 h2
      obtain ⟨buf, hch, hbuf⟩ := h2
      cases tpc with
      | none => simp at h0
      | some pc =>
        cases pc <;> simp [afterServe, afterIfErr, hs] at herr hbuf <;>
          simp [exec, step, hs, hch, herr, hbuf]
  | some e =>
    cases mpc with
    | atMake =>
      simp at h0 h1
      obtain ⟨hc, hr⟩ := h1
      subst h0 hc hr
      simp [exec, step, hs]
    | atGo =>
      simp at h0 h2
      subst h0
      obtain ⟨buf, hch, hbuf⟩ := h2
      simp [afterIfErr] at hbuf
      simp [exec, step, hs, hch, hbuf]
    | atReturn =>
      simp at h0 h2
      obtain ⟨buf, hch, hbuf⟩ := h2
      cases tpc with
      | none => simp at h0
      | some pc =>
        cases pc <;> simp [afterServe, afterIfErr, hs] at herr hbuf <;>
          simp [exec, step, hs, hch, herr, hbuf]
    | returned =>
      simp at h0 h2
      obtain ⟨buf, hch, hbuf⟩ := h2
      cases tpc with
      | none => simp at h0
      | some pc =>
        cases pc <;> simp [afterServe, afterIfErr, hs] at herr hbuf <;>
          simp [exec, step, hs, hch, herr, hbuf]

theorem exec_append (w : World) (server : ThriftServer) (l1 l2 : List Actor) (s : StartState) :
    exec w server (l1 ++ l2) s = exec w server l2 (exec w server l1 s) := by
  induction l1 generalizing s with
  | nil => rfl
  | cons a rest ih =>
    simp only [List.cons_append, exec]
    cases step w server a s with
    | none => exact ih s
    | some s1 => exact ih s1

theorem send_enabled (w : World) (server : ThriftServer) (s : StartState)
    (hinv : Inv w server s) (hpc : s.taskPc = some .atIfErr) :
    s.received = [] ∧
    ∃ s1 ch1, step w server .task s = some s1 ∧ s1.taskPc = some .atPrintln ∧
      s1.panicked = false ∧ s1.returnCh = some ch1 ∧
      ch1.buf = (w.Serve server.server).toList ∧ s1.received = [] := by
  obtain ⟨mpc, tpc, err, ch, rcv, pan, tr⟩ := s
  obtain ⟨hp, htr, herr, h0, h1, h2⟩ := hinv
  simp only at hp htr herr h0 h1 h2 hpc
  subst hp hpc
  have hm : mpc ≠ .atMake := by
    intro h
    simp [h] at h0
  obtain ⟨buf, hch, hbuf⟩ := h2 hm
  simp [afterServe, afterIfErr] at herr hbuf
  obtain ⟨hr, hb⟩ := hbuf
  subst hr hb
  cases hs : w.Serve server.server with
  | none => simp [step, hch, herr, hs]
  | some e => simp [step, hch, herr, hs]

theorem done_state (w : World) (server : ThriftServer) (s : StartState)
    (hinv : Inv w server s) (hpc : s.taskPc = some .done) :
    step w server .task s = none ∧
    ∃ buf, s.returnCh = some ⟨1, buf, true⟩ ∧
      s.received ++ buf = (w.Serve server.server).toList := by
  obtain ⟨mpc, tpc, err, ch, rcv, pan, tr⟩ := s
  obtain ⟨hp, htr, herr, h0, h1, h2⟩ := hinv
  simp only at hp htr herr h0 h1 h2 hpc
  subst hp hpc
  have hm : mpc ≠ .atMake := by
    intro h
    simp [h] at h0
  obtain ⟨buf, hch, hbuf⟩ := h2 hm
  simp [afterIfErr] at hbuf
  simp [step, hch, hbuf]

theorem chan_state (w : World) (server : ThriftServer) (s : StartState)
    (hinv : Inv w server s) (ch : Chan) (hch : s.returnCh = some ch) :
    ch.cap = 1 ∧ ch.buf.length ≤ 1 ∧ (ch.closed = true ↔ s.taskPc = some .done) ∧
    s.received ++ ch.buf =
      (if afterIfErr s.taskPc then (w.Serve server.server).toList else []) := by
  obtain ⟨hp, htr, herr, h0, h1, h2⟩ := hinv
  have hm : s.mainPc ≠ .atMake := by
    intro h
    rw [(h1 h).1] at hch
    cases hch
  obtain ⟨buf, hch1, hbuf⟩ := h2 hm
  rw [hch1] at hch
  cases hch
  refine ⟨rfl, ?_, by simp, hbuf⟩
  have hlen := congrArg List.length hbuf
  simp only [List.length_append] at hlen
  have hle : (if afterIfErr s.taskPc = true then (w.Serve server.server).toList
      else []).length ≤ 1 := by
    split
    · cases w.Serve server.server <;> simp
    · simp
  simp only at hlen ⊢
  omega

theorem step_mainPc_returned (w : World) (server : ThriftServer) (a : Actor)
    (s s1 : StartState) (hstep : step w server a s = some s1) (hm : s.mainPc = .returned) :
    s1.mainPc = .returned := by
  obtain ⟨mpc, tpc, err, ch, rcv, pan, tr⟩ := s
  simp only at hm
  subst hm
  cases pan with
  | true => simp [step] at hstep
  | false =>
    cases a with
    | main => simp [step] at hstep
    | runtime =>
      simp only [step] at hstep
      split at hstep
      · simp at hstep
      · split at hstep
        · simp at hstep
          rw [← hstep]
        · simp at hstep
    | task =>
      simp only [step] at hstep
      split at hstep
      · simp at hstep
      · split at hstep
        · simp at hstep; rw [← hstep]
        · simp at hstep; rw [← hstep]
        · split at hstep
          · simp at hstep; rw [← hstep]
          · split at hstep
            · simp at hstep; rw [← hstep]
            · split at hstep
              · simp at hstep; rw [← hstep]
              · simp at hstep
        · simp at hstep; rw [← hstep]
        · split at hstep
          · simp at hstep; rw [← hstep]
          · simp at hstep; rw [← hstep]
        · simp at hstep
    | caller =>
      simp only [step] at hstep
      split at hstep
      · simp at hstep
      · split at hstep
        · split at hstep
          · simp at hstep; rw [← hstep]
          · split at hstep
            · simp at hstep; rw [← hstep]
            · simp at hstep
        · simp at hstep

theorem exec_mainPc_returned (w : World) (server : ThriftServer) (sched : List Actor)
    (s : StartState) (hm : s.mainPc = .returned) :
    (exec w server sched s).mainPc = .returned := by
  induction sched generalizing s with
  | nil => exact hm
  | cons a rest ih =>
    simp only [exec]
    cases h : step w server a s with
    | none => exact ih s hm
    | some s1 => exact ih s1 (step_mainPc_returned w server a s s1 h hm)

theorem main_returns (w : World) (server : ThriftServer) (s : StartState)
    (hinv : Inv w server s) :
    (exec w server [.main, .main, .main] s).mainPc = .returned := by
  obtain ⟨mpc, tpc, err, ch, rcv, pan, tr⟩ := s
  have hp := hinv.1
  simp only at hp
  subst hp
  cases mpc <;> simp [exec, step]

theorem caller_drains (w : World) (server : ThriftServer) (s : StartState)
    (hinv : Inv w server s) (hm : s.mainPc = .returned) (hpc : s.taskPc = some .done) :
    (exec w server [.caller] s).received = (w.Serve server.server).toList := by
  obtain ⟨mpc, tpc, err, ch, rcv, pan, tr⟩ := s
  obtain ⟨hp, htr, herr, h0, h1, h2⟩ := hinv
  simp only at hp htr herr h0 h1 h2 hpc hm
  subst hp hpc hm
  obtain ⟨buf, hch, hbuf⟩ := h2 (by simp)
  simp [afterIfErr] at hbuf
  rw [hch]
  clear hch h1
  cases buf with
  | nil =>
    simp at hbuf
    simp [exec, step, hbuf]
  | cons v rest =>
    simp [exec, step]
    rw [← hbuf]
    cases hs : w.Serve server.server with
    | none => simp [hs] at hbuf
    | some e =>
      simp [hs] at hbuf
      have hlen := congrArg List.length hbuf
      simp at hlen
      have hr : rest = [] := List.eq_nil_of_length_eq_zero (by omega)
      simp [hr]

theorem finish_received (w : World) (server : ThriftServer) (s : StartState)
    (hinv : Inv w server s) :
    (exec w server
      [.main, .main, .main, .task, .task, .runtime, .task, .task, .task, .caller] s).received =
      (w.Serve server.server).toList := by
  have e1 : ([.main, .main, .main, .task, .task, .runtime, .task, .task, .task, .caller] :
      List Actor) = [.main] ++ [.main, .main, .task, .task, .runtime, .task, .task, .task] ++
        [.caller] := rfl
  have e2 : ([.main] ++ [.main, .main, .task, .task, .runtime, .task, .task, .task] :
      List Actor) = [.main, .main, .main] ++ [.task, .task, .runtime, .task, .task, .task] := rfl
  rw [e1, exec_append]
  apply caller_drains
  · exact exec_inv w server _ s hinv
  · rw [e2, exec_append]
    exact exec_mainPc_returned w server _ _ (main_returns w server s hinv)
  · rw [exec_append]
    exact finish w server _ (exec_inv w server _ s hinv)

theorem send_mem (w : World) (server : ThriftServer) (s : StartState)
    (hinv : Inv w server s) (e : GoError) (hmem : Event.send e ∈ s.trace) :
    w.Serve server.server = some e := by
  have h1 : Event.send e ∈ taskEvents s.trace := by
    unfold taskEvents
    exact List.mem_filter.2 ⟨hmem, rfl⟩
  rw [hinv.2.1] at h1
  have h2 := List.mem_of_mem_take h1
  rw [taskProgram_cases] at h2
  cases hs : w.Serve server.server with
  | none => simp [hs] at h2
  | some e1 =>
    simp [hs] at h2
    rw [h2]

theorem taskEvents_split (l1 l2 : List Event) (e : Event) (he : e.ofTask = true) :
    taskEvents (l1 ++ e :: l2) = taskEvents l1 ++ e :: taskEvents l2 := by
  simp [taskEvents, List.filter_append, List.filter_cons, he]

theorem start_line_first (w : World) (server : ThriftServer) (s : StartState)
    (hinv : Inv w server s) (l1 l2 : List Event) (hsplit : s.trace = l1 ++ Event.serveCall :: l2) :
    Event.print (startLine server.addr) ∈ l1 := by
  have h := hinv.2.1
  rw [hsplit, taskEvents_split l1 l2 Event.serveCall rfl] at h
  cases hl : taskEvents l1 with
  | nil =>
    rw [hl] at h
    cases hk : taskProgress w server s.taskPc with
    | zero => simp [hk] at h
    | succ k => simp [hk, taskProgram] at h
  | cons x xs =>
    rw [hl] at h
    have hx : x ∈ l1 := by
      have : x ∈ taskEvents l1 := by simp [hl]
      exact (List.mem_filter.1 this).1
    cases hk : taskProgress w server s.taskPc with
    | zero => simp [hk] at h
    | succ k =>
      simp [hk, taskProgram] at h
      rw [← h.1]
      exact hx

theorem nothing_after_close (w : World) (server : ThriftServer) (s : StartState)
    (hinv : Inv w server s) (l1 l2 : List Event) (hsplit : s.trace = l1 ++ Event.close :: l2) :
    taskEvents l2 = [] := by
  have h := hinv.2.1
  rw [hsplit, taskEvents_split l1 l2 Event.close rfl] at h
  obtain ⟨P, hP, hnot⟩ : ∃ P, taskProgram w server = P ++ [Event.close] ∧ Event.close ∉ P := by
    rw [taskProgram_cases]
    cases w.Serve server.server with
    | none => exact ⟨[.print (startLine server.addr), .serveCall, .serveReturn none,
        .print stopLine], rfl, by simp⟩
    | some e => exact ⟨[.print (startLine server.addr), .serveCall, .serveReturn (some e),
        .send e, .print stopLine], rfl, by simp⟩
  have h2 : P ++ [Event.close] =
      taskEvents l1 ++ Event.close ::
        (taskEvents l2 ++ (taskProgram w server).drop (taskProgress w server s.taskPc)) := by
    rw [← hP]
    conv_lhs => rw [← List.take_append_drop (taskProgress w server s.taskPc) (taskProgram w server)]
    rw [← h]
    simp
  rcases List.append_eq_append_iff.1 h2 with ⟨a, ha, hb⟩ | ⟨c, hc, hd⟩
  · have hlen := congrArg List.length hb
    simp at hlen
    have : taskEvents l2 = [] := by
      apply List.eq_nil_of_length_eq_zero
      omega
    exact this
  · cases c with
    | nil =>
      simp at hd
      exact hd.1
    | cons x c1 =>
      simp at hd
      exfalso
      apply hnot
      rw [hc, ← hd.1]
      simp

/-! ## The assemblers: theorems -/

/-- Both assemblers return the error `unknown protocol`, as a value and as a
message, exactly when the protocol has no entry in `protocolFactoryMap`. -/
theorem unknown_protocol_iff (w : World) (addr : String) (opt : Option)
    (processor : TProcessor) :
    ((NewThriftClient w addr opt).err = some (Errorf "unknown protocol") ↔
      protocolFactoryMap.get opt.Protocol = none) ∧
    ((NewThriftClient w addr opt).err.map GoError.Error = some "unknown protocol" ↔
      protocolFactoryMap.get opt.Protocol = none) ∧
    ((NewThriftServer w addr opt processor).err = some (Errorf "unknown protocol") ↔
      protocolFactoryMap.get opt.Protocol = none) ∧
    ((NewThriftServer w addr opt processor).err.map GoError.Error = some "unknown protocol" ↔
      protocolFactoryMap.get opt.Protocol = none) := by
  have he : (Errorf "unknown protocol").Error = "unknown protocol" := rfl
  have h1 := fun post e => (errorfW_message_ne post e).1
  have h2 := fun post e => (errorfW_message_ne post e).2.1
  have h3 := fun post e => (errorfW_message_ne post e).2.2.1
  have h4 := fun post e => (errorfW_message_ne post e).2.2.2
  refine ⟨?_, ?_, ?_, ?_⟩
  · rcases client_cases w addr opt with ⟨h, hr⟩ | ⟨pf, e, h, -, hr⟩ | ⟨pf, t, e, h, -, -, hr⟩ |
      ⟨pf, t, h, -, -, hr⟩ <;> simp [hr, h, Errorf, ErrorfW]
  · rcases client_cases w addr opt with ⟨h, hr⟩ | ⟨pf, e, h, -, hr⟩ | ⟨pf, t, e, h, -, -, hr⟩ |
      ⟨pf, t, h, -, -, hr⟩ <;> simp [hr, h, he, h1, h2, h3, h4]
  · rcases server_cases w addr opt processor with ⟨h, hr⟩ | ⟨pf, e, h, -, -, hr⟩ |
      ⟨pf, sc, cc, ca, e, h, -, -, -, hr⟩ | ⟨pf, sc, cc, ca, t, h, -, -, -, hr⟩ |
      ⟨pf, e, h, -, -, hr⟩ | ⟨pf, t, h, -, -, hr⟩ <;> simp [hr, h, Errorf, ErrorfW]
  · rcases server_cases w addr opt processor with ⟨h, hr⟩ | ⟨pf, e, h, -, -, hr⟩ |
      ⟨pf, sc, cc, ca, e, h, -, -, -, hr⟩ | ⟨pf, sc, cc, ca, t, h, -, -, -, hr⟩ |
      ⟨pf, e, h, -, -, hr⟩ | ⟨pf, t, h, -, -, hr⟩ <;> simp [hr, h, he, h1, h2, h3, h4]

/-- C1. After `init`, `protocolFactoryMap` has an entry for each of `BINARY`,
`JSON`, `SIMPLEJSON`, `COMPACT` (the binary, JSON, simple-JSON and compact
factory respectively, pairwise different) and for no other integer; and
`NewThriftClient` and `NewThriftServer` return the error `unknown protocol`
exactly when `opt.Protocol` is not one of the integers 0..3. -/
theorem protocol_registry_lookup (w : World) (addr : String) (opt : Option)
    (processor : TProcessor) :
    protocolFactoryMap.get BINARY = some (NewTBinaryProtocolFactoryConf none) ∧
    protocolFactoryMap.get JSON = some NewTJSONProtocolFactory ∧
    protocolFactoryMap.get SIMPLEJSON = some (NewTSimpleJSONProtocolFactoryConf none) ∧
    protocolFactoryMap.get COMPACT = some (NewTCompactProtocolFactoryConf none) ∧
    [protocolFactoryMap.get BINARY, protocolFactoryMap.get JSON,
      protocolFactoryMap.get SIMPLEJSON, protocolFactoryMap.get COMPACT].Nodup ∧
    [BINARY, JSON, SIMPLEJSON, COMPACT] = [0, 1, 2, 3] ∧
    (∀ p : Protocol, (p < 0 ∨ 3 < p) → protocolFactoryMap.get p = none) ∧
    ((NewThriftClient w addr opt).err = some (Errorf "unknown protocol") ↔
      (opt.Protocol < 0 ∨ 3 < opt.Protocol)) ∧
    ((NewThriftClient w addr opt).err.map GoError.Error = some "unknown protocol" ↔
      (opt.Protocol < 0 ∨ 3 < opt.Protocol)) ∧
    ((NewThriftServer w addr opt processor).err = some (Errorf "unknown protocol") ↔
      (opt.Protocol < 0 ∨ 3 < opt.Protocol)) ∧
    ((NewThriftServer w addr opt processor).err.map GoError.Error = some "unknown protocol" ↔
      (opt.Protocol < 0 ∨ 3 < opt.Protocol)) := by
  have h := unknown_protocol_iff w addr opt processor
  rw [get_protocol_none opt.Protocol] at h
  exact ⟨by decide, by decide, by decide, by decide, by decide, by decide,
    fun p hp => (get_protocol_none p).2 hp, h⟩

/-- Witness for C1: protocol 7 is not registered, and a client built for it
fails with `unknown protocol`. -/
theorem protocol_registry_lookup_witness :
    protocolFactoryMap.get 7 = none ∧
    (NewThriftClient calmWorld "127.0.0.1:9090" ⟨7, false, true, false⟩).err =
      some (Errorf "unknown protocol") :=
  ⟨(protocol_registry_lookup calmWorld "127.0.0.1:9090" ⟨7, false, true, false⟩ ⟨0⟩).2.2.2.2.2.2.1
      7 (by decide),
   (protocol_registry_lookup calmWorld "127.0.0.1:9090" ⟨7, false, true, false⟩
      ⟨0⟩).2.2.2.2.2.2.2.1.2 (by decide)⟩

/-- C10. `NewDefaultOption` is `BINARY`, not secure, buffered, not framed;
`BINARY` is registered; hence neither assembler, given the default option,
returns the error `unknown protocol`, whatever the collaborators do. -/
theorem default_option_registered (w : World) (addr : String) (processor : TProcessor) :
    NewDefaultOption = ⟨BINARY, false, true, false⟩ ∧
    protocolFactoryMap.get NewDefaultOption.Protocol = some (NewTBinaryProtocolFactoryConf none) ∧
    (NewThriftClient w addr NewDefaultOption).err ≠ some (Errorf "unknown protocol") ∧
    (NewThriftClient w addr NewDefaultOption).err.map GoError.Error ≠ some "unknown protocol" ∧
    (NewThriftServer w addr NewDefaultOption processor).err ≠ some (Errorf "unknown protocol") ∧
    (NewThriftServer w addr NewDefaultOption processor).err.map GoError.Error ≠
      some "unknown protocol" := by
  have h := unknown_protocol_iff w addr NewDefaultOption processor
  have hp : protocolFactoryMap.get NewDefaultOption.Protocol ≠ none := by decide
  refine ⟨rfl, by decide, ?_, ?_, ?_, ?_⟩
  · exact fun hc => hp (h.1.1 hc)
  · exact fun hc => hp (h.2.1.1 hc)
  · exact fun hc => hp (h.2.2.1.1 hc)
  · exact fun hc => hp (h.2.2.2.1 hc)

/-- Witness for C10: in a world where every collaborator fails, the client
built from the default option fails, but not with `unknown protocol`. -/
theorem default_option_registered_witness :
    (NewThriftClient stormWorld "127.0.0.1:9090" NewDefaultOption).err ≠ none ∧
    (NewThriftClient stormWorld "127.0.0.1:9090" NewDefaultOption).err ≠
      some (Errorf "unknown protocol") :=
  ⟨by decide, (default_option_registered stormWorld "127.0.0.1:9090" ⟨0⟩).2.2.1⟩

/-- C2. For each of the four combinations of `Buffered` and `Framed`, the map
entry for `Buffered` exists, and the factory both assemblers compose is the
one the spec describes (`specChain`): never `nil`, the 8192-byte buffering
factory or the identity factory, with the framing factory around it exactly
when `Framed`. The client hands that factory the base transport as its first
call and builds both codecs on what the factory returns; the server hands the
factory, with the looked-up protocol factory, to `NewTSimpleServer4`. -/
theorem transport_chain_composition (w : World) (addr : String) (opt : Option)
    (processor : TProcessor) :
    bufferedTransportFactoryMap.get opt.Buffered =
      some (if opt.Buffered then NewTBufferedTransportFactory 8192 else NewTTransportFactory) ∧
    specChain opt.Buffered opt.Framed ≠ TTransportFactory.nil ∧
    specChain opt.Buffered opt.Framed =
      (if opt.Framed then
        NewTFramedTransportFactoryConf
          (if opt.Buffered then NewTBufferedTransportFactory 8192 else NewTTransportFactory)
          skipVerifyCfg
      else (if opt.Buffered then NewTBufferedTransportFactory 8192 else NewTTransportFactory)) ∧
    (∀ pf, protocolFactoryMap.get opt.Protocol = some pf →
      (NewThriftClient w addr opt).calls.head? =
        some (Call.GetTransport (specChain opt.Buffered opt.Framed) (specBase addr opt.Secure)) ∧
      ∀ c, (NewThriftClient w addr opt).client = some c →
        ∃ t, w.GetTransport (specChain opt.Buffered opt.Framed) (specBase addr opt.Secure) = .ok t ∧
          c = NewTStandardClient (GetProtocol pf t) (GetProtocol pf t)) ∧
    (∀ srv, (NewThriftServer w addr opt processor).server = some srv →
      ∃ pf listener, protocolFactoryMap.get opt.Protocol = some pf ∧
        srv.server =
          NewTSimpleServer4 processor listener (specChain opt.Buffered opt.Framed) pf) := by
  refine ⟨?_, ?_, ?_, ?_, ?_⟩
  · cases opt.Buffered <;> rfl
  · cases opt.Buffered <;> cases opt.Framed <;> decide
  · cases opt.Buffered <;> cases opt.Framed <;> rfl
  · intro pf hpf
    rcases client_cases w addr opt with ⟨h, hr⟩ | ⟨pf1, e, h, hg, hr⟩ | ⟨pf1, t, e, h, hg, ho, hr⟩ |
      ⟨pf1, t, h, hg, ho, hr⟩
    · simp [h] at hpf
    · simp [hr]
    · simp [hr]
    · rw [hpf] at h
      cases h
      simp [hr, hg]
  · intro srv hsrv
    rcases server_cases w addr opt processor with ⟨h, hr⟩ | ⟨pf, e, h, -, -, hr⟩ |
      ⟨pf, sc, cc, ca, e, h, -, -, -, hr⟩ | ⟨pf, sc, cc, ca, t, h, -, -, -, hr⟩ |
      ⟨pf, e, h, -, -, hr⟩ | ⟨pf, t, h, -, -, hr⟩
    all_goals rw [hr] at hsrv
    all_goals simp at hsrv
    all_goals exact ⟨pf, t, h, by rw [← hsrv]⟩

/-- Witness for C2: with the default option in a world where every call
succeeds, the server is built around the buffering factory alone, and with a
framed, unbuffered option the client is built over a framed socket. -/
theorem transport_chain_composition_witness :
    (∃ pf listener, protocolFactoryMap.get NewDefaultOption.Protocol = some pf ∧
      sampleServer.server =
        NewTSimpleServer4 ⟨0⟩ listener (TTransportFactory.TBufferedTransportFactory 8192) pf) ∧
    (∃ t, calmWorld.GetTransport (specChain false true) (specBase "10.0.0.1:9090" true) = .ok t ∧
      (⟨⟨.TCompactProtocolFactory none, .TFramedTransport (.TSSLSocket "10.0.0.1:9090" skipVerifyCfg)
            skipVerifyCfg⟩,
        ⟨.TCompactProtocolFactory none, .TFramedTransport (.TSSLSocket "10.0.0.1:9090" skipVerifyCfg)
            skipVerifyCfg⟩⟩ : TStandardClient) =
        NewTStandardClient (GetProtocol (.TCompactProtocolFactory none) t)
          (GetProtocol (.TCompactProtocolFactory none) t)) :=
  ⟨(transport_chain_composition calmWorld "127.0.0.1:9090" NewDefaultOption ⟨0⟩).2.2.2.2
      sampleServer (by decide),
   ((transport_chain_composition calmWorld "10.0.0.1:9090" secureOption ⟨0⟩).2.2.2.1
      (.TCompactProtocolFactory none) (by decide)).2 _ (by decide)⟩

/-- C4, as the code has it. `NewThriftClient` returns either a client and a
transport with a nil error, or no client, no transport and an error; the second
whenever the protocol is unknown, `GetTransport` of the composed factory on the
base transport fails, or `Open` of the wrapped transport fails, and the first
in every other case. `NewThriftServer` returns either a handle with a nil
error, or no handle and an error; the second whenever the protocol is unknown,
`certsetup` fails (with `Secure`), or the constructor of the listening socket
fails (`NewTSSLServerSocket` on the configuration `certsetup` returned, with
`Secure`; `NewTServerSocket` otherwise), and the first in every other case. -/
theorem no_half_built_handle (w : World) (addr : String) (opt : Option) (processor : TProcessor) :
    (((∃ c t, (NewThriftClient w addr opt).client = some c ∧
          (NewThriftClient w addr opt).closer = some t ∧ (NewThriftClient w addr opt).err = none) ∨
      ((NewThriftClient w addr opt).client = none ∧ (NewThriftClient w addr opt).closer = none ∧
          ∃ e, (NewThriftClient w addr opt).err = some e)) ∧
     (protocolFactoryMap.get opt.Protocol = none →
        (NewThriftClient w addr opt).client = none ∧ (NewThriftClient w addr opt).closer = none ∧
        (NewThriftClient w addr opt).err ≠ none) ∧
     (∀ e, w.GetTransport (specChain opt.Buffered opt.Framed) (specBase addr opt.Secure) = .error e →
        (NewThriftClient w addr opt).client = none ∧ (NewThriftClient w addr opt).closer = none ∧
        (NewThriftClient w addr opt).err ≠ none) ∧
     (∀ t e, w.GetTransport (specChain opt.Buffered opt.Framed) (specBase addr opt.Secure) = .ok t →
        w.Open t = some e →
        (NewThriftClient w addr opt).client = none ∧ (NewThriftClient w addr opt).closer = none ∧
        (NewThriftClient w addr opt).err ≠ none) ∧
     (∀ pf t, protocolFactoryMap.get opt.Protocol = some pf →
        w.GetTransport (specChain opt.Buffered opt.Framed) (specBase addr opt.Secure) = .ok t →
        w.Open t = none →
        (NewThriftClient w addr opt).client ≠ none ∧ (NewThriftClient w addr opt).closer = some t ∧
        (NewThriftClient w addr opt).err = none)) ∧
    (((∃ srv, (NewThriftServer w addr opt processor).server = some srv ∧
          (NewThriftServer w addr opt processor).err = none) ∨
      ((NewThriftServer w addr opt processor).server = none ∧
          ∃ e, (NewThriftServer w addr opt processor).err = some e)) ∧
     (protocolFactoryMap.get opt.Protocol = none →
        (NewThriftServer w addr opt processor).server = none ∧
        (NewThriftServer w addr opt processor).err ≠ none) ∧
     (opt.Secure = true → ∀ e, w.certsetup = .error e →
        (NewThriftServer w addr opt processor).server = none ∧
        (NewThriftServer w addr opt processor).err ≠ none) ∧
     (opt.Secure = true → ∀ sc cc ca e, w.certsetup = .ok (sc, cc, ca) →
        w.NewTSSLServerSocket addr sc = .error e →
        (NewThriftServer w addr opt processor).server = none ∧
        (NewThriftServer w addr opt processor).err ≠ none) ∧
     (opt.Secure = false → ∀ e, w.NewTServerSocket addr = .error e →
        (NewThriftServer w addr opt processor).server = none ∧
        (NewThriftServer w addr opt processor).err ≠ none) ∧
     (∀ pf, protocolFactoryMap.get opt.Protocol = some pf → opt.Secure = true →
        ∀ sc cc ca t, w.certsetup = .ok (sc, cc, ca) → w.NewTSSLServerSocket addr sc = .ok t →
        (NewThriftServer w addr opt processor).server ≠ none ∧
        (NewThriftServer w addr opt processor).err = none) ∧
     (∀ pf, protocolFactoryMap.get opt.Protocol = some pf → opt.Secure = false →
        ∀ t, w.NewTServerSocket addr = .ok t →
        (NewThriftServer w addr opt processor).server ≠ none ∧
        (NewThriftServer w addr opt processor).err = none)) := by
  constructor
  · rcases client_cases w addr opt with ⟨h, hr⟩ | ⟨pf1, e, h, hg, hr⟩ | ⟨pf1, t, e, h, hg, ho, hr⟩ |
      ⟨pf1, t, h, hg, ho, hr⟩
    · simp [hr, h]
    · simp [hr, h, hg]
    · rw [hr]
      refine ⟨by simp, by simp, by simp, by simp, ?_⟩
      intro pf t1 _ hg1 ho1
      rw [hg] at hg1
      cases hg1
      rw [ho] at ho1
      cases ho1
    · rw [hr]
      refine ⟨by simp, by simp [h], by simp [hg], ?_, ?_⟩
      · intro t1 e hg1 ho1
        rw [hg] at hg1
        cases hg1
        rw [ho] at ho1
        cases ho1
      · intro pf t1 _ hg1 _
        rw [hg] at hg1
        cases hg1
        simp
  · rcases server_cases w addr opt processor with ⟨h, hr⟩ | ⟨pf, e, h, hs, hc, hr⟩ |
      ⟨pf, sc, cc, ca, e, h, hs, hc, hn, hr⟩ | ⟨pf, sc, cc, ca, t, h, hs, hc, hn, hr⟩ |
      ⟨pf, e, h, hs, hn, hr⟩ | ⟨pf, t, h, hs, hn, hr⟩
    · simp [hr, h]
    · simp [hr, h, hs, hc]
    · rw [hr]
      refine ⟨by simp, by simp, by simp, by simp, by simp, ?_, by simp [hs]⟩
      intro pf1 _ _ sc1 cc1 ca1 t1 hc1 hn1
      rw [hc] at hc1
      cases hc1
      rw [hn] at hn1
      cases hn1
    · rw [hr]
      refine ⟨by simp, by simp [h], by simp [hc], ?_, by simp [hs], by simp, by simp⟩
      intro _ sc1 cc1 ca1 e hc1 hn1
      rw [hc] at hc1
      cases hc1
      rw [hn] at hn1
      cases hn1
    · simp [hr, h, hs, hn]
    · simp [hr, h, hs, hn]

/-- Witness for C4: against an address nobody listens on, `Open` fails and the
client assembler returns no client, no transport and an error; for a listen
address that does not resolve, the server assembler returns no handle and an
error. -/
theorem no_half_built_handle_witness :
    ((NewThriftClient unreachableWorld "127.0.0.1:1" NewDefaultOption).client = none ∧
      (NewThriftClient unreachableWorld "127.0.0.1:1" NewDefaultOption).closer = none ∧
      (NewThriftClient unreachableWorld "127.0.0.1:1" NewDefaultOption).err ≠ none) ∧
    ((NewThriftServer badAddressWorld "127.0.0.1" NewDefaultOption ⟨0⟩).server = none ∧
      (NewThriftServer badAddressWorld "127.0.0.1" NewDefaultOption ⟨0⟩).err ≠ none) :=
  ⟨(no_half_built_handle unreachableWorld "127.0.0.1:1" NewDefaultOption ⟨0⟩).1.2.2.2.1
      (.TBufferedTransport (.TSocket "127.0.0.1:1" skipVerifyCfg) 8192)
      (.errorString "connection refused") rfl rfl,
   (no_half_built_handle badAddressWorld "127.0.0.1" NewDefaultOption ⟨0⟩).2.2.2.2.2.1
      rfl (.errorString "missing port in address") rfl⟩

/-- C4, counterexample. Where the port is taken, binding the listening socket
fails, and `NewThriftServer` nevertheless returns a handle and a nil error,
with and without `Secure`: the constructors it calls do not bind. The failure
is what `Serve` returns, and `Start` delivers it to the caller on the
channel. -/
theorem bind_failure_returns_handle :
    ((NewThriftServer portTakenWorld "127.0.0.1:9090" NewDefaultOption ⟨0⟩).server =
        some sampleServer ∧
      (NewThriftServer portTakenWorld "127.0.0.1:9090" NewDefaultOption ⟨0⟩).err = none) ∧
    ((NewThriftServer portTakenWorld "127.0.0.1:9090" secureOption ⟨0⟩).server ≠ none ∧
      (NewThriftServer portTakenWorld "127.0.0.1:9090" secureOption ⟨0⟩).err = none) ∧
    portTakenWorld.Serve sampleServer.server =
      some (.errorString "bind: address already in use") ∧
    (exec portTakenWorld sampleServer
      [.main, .main, .main, .task, .task, .runtime, .task, .task, .task, .caller]
      StartState.entry).received = [.errorString "bind: address already in use"] := by
  decide

/-- C5. When a step of an assembler fails with error `e`, the assembler
returns no handle and a non-nil error whose `Unwrap` is `e`. The steps are, for
a registered protocol: in `NewThriftClient`, `GetTransport` of the composed
factory on the base transport, and `Open` of the transport it returned; in
`NewThriftServer`, `certsetup` and then `NewTSSLServerSocket` on `addr` with the
server configuration it returned (with `Secure`), or `NewTServerSocket` on
`addr` (without). -/
theorem build_failure_wraps_cause (w : World) (addr : String) (opt : Option)
    (processor : TProcessor) (pf : TProtocolFactory)
    (hreg : protocolFactoryMap.get opt.Protocol = some pf) :
    (∀ e, w.GetTransport (specChain opt.Buffered opt.Framed) (specBase addr opt.Secure) = .error e →
        (NewThriftClient w addr opt).client = none ∧ (NewThriftClient w addr opt).closer = none ∧
        ∃ r, (NewThriftClient w addr opt).err = some r ∧ r.Unwrap = some e) ∧
    (∀ t e, w.GetTransport (specChain opt.Buffered opt.Framed) (specBase addr opt.Secure) = .ok t →
        w.Open t = some e →
        (NewThriftClient w addr opt).client = none ∧ (NewThriftClient w addr opt).closer = none ∧
        ∃ r, (NewThriftClient w addr opt).err = some r ∧ r.Unwrap = some e) ∧
    (opt.Secure = true → ∀ e, w.certsetup = .error e →
        (NewThriftServer w addr opt processor).server = none ∧
        ∃ r, (NewThriftServer w addr opt processor).err = some r ∧ r.Unwrap = some e) ∧
    (opt.Secure = true → ∀ sc cc ca e, w.certsetup = .ok (sc, cc, ca) →
        w.NewTSSLServerSocket addr sc = .error e →
        (NewThriftServer w addr opt processor).server = none ∧
        ∃ r, (NewThriftServer w addr opt processor).err = some r ∧ r.Unwrap = some e) ∧
    (opt.Secure = false → ∀ e, w.NewTServerSocket addr = .error e →
        (NewThriftServer w addr opt processor).server = none ∧
        ∃ r, (NewThriftServer w addr opt processor).err = some r ∧ r.Unwrap = some e) := by
  refine ⟨?_, ?_, ?_, ?_, ?_⟩
  · intro e hf
    rcases client_cases w addr opt with ⟨h, hr⟩ | ⟨pf1, e1, h, hg, hr⟩ |
      ⟨pf1, t, e1, h, hg, ho, hr⟩ | ⟨pf1, t, h, hg, ho, hr⟩
    · rw [h] at hreg
      cases hreg
    · rw [hg] at hf
      cases hf
      rw [hr]
      exact ⟨rfl, rfl, _, rfl, rfl⟩
    · rw [hg] at hf
      cases hf
    · rw [hg] at hf
      cases hf
  · intro t1 e hg1 hf
    rcases client_cases w addr opt with ⟨h, hr⟩ | ⟨pf1, e1, h, hg, hr⟩ |
      ⟨pf1, t, e1, h, hg, ho, hr⟩ | ⟨pf1, t, h, hg, ho, hr⟩
    · rw [h] at hreg
      cases hreg
    · rw [hg] at hg1
      cases hg1
    · rw [hg] at hg1
      cases hg1
      rw [ho] at hf
      cases hf
      rw [hr]
      exact ⟨rfl, rfl, _, rfl, rfl⟩
    · rw [hg] at hg1
      cases hg1
      rw [ho] at hf
      cases hf
  · intro hsec e hf
    rcases server_cases w addr opt processor with ⟨h, hr⟩ | ⟨pf, e1, h, hs, hc, hr⟩ |
      ⟨pf, sc, cc, ca, e1, h, hs, hc, hn, hr⟩ | ⟨pf, sc, cc, ca, t, h, hs, hc, hn, hr⟩ |
      ⟨pf, e1, h, hs, hn, hr⟩ | ⟨pf, t, h, hs, hn, hr⟩
    · rw [h] at hreg
      cases hreg
    · rw [hc] at hf
      cases hf
      rw [hr]
      exact ⟨rfl, _, rfl, rfl⟩
    · rw [hc] at hf
      cases hf
    · rw [hc] at hf
      cases hf
    · rw [hs] at hsec
      cases hsec
    · rw [hs] at hsec
      cases hsec
  · intro hsec sc1 cc1 ca1 e hc1 hf
    rcases server_cases w addr opt processor with ⟨h, hr⟩ | ⟨pf, e1, h, hs, hc, hr⟩ |
      ⟨pf, sc, cc, ca, e1, h, hs, hc, hn, hr⟩ | ⟨pf, sc, cc, ca, t, h, hs, hc, hn, hr⟩ |
      ⟨pf, e1, h, hs, hn, hr⟩ | ⟨pf, t, h, hs, hn, hr⟩
    · rw [h] at hreg
      cases hreg
    · rw [hc] at hc1
      cases hc1
    · rw [hc] at hc1
      cases hc1
      rw [hn] at hf
      cases hf
      rw [hr]
      exact ⟨rfl, _, rfl, rfl⟩
    · rw [hc] at hc1
      cases hc1
      rw [hn] at hf
      cases hf
    · rw [hs] at hsec
      cases hsec
    · rw [hs] at hsec
      cases hsec
  · intro hsec e hf
    rcases server_cases w addr opt processor with ⟨h, hr⟩ | ⟨pf, e1, h, hs, hc, hr⟩ |
      ⟨pf, sc, cc, ca, e1, h, hs, hc, hn, hr⟩ | ⟨pf, sc, cc, ca, t, h, hs, hc, hn, hr⟩ |
      ⟨pf, e1, h, hs, hn, hr⟩ | ⟨pf, t, h, hs, hn, hr⟩
    · rw [h] at hreg
      cases hreg
    · rw [hs] at hsec
      cases hsec
    · rw [hs] at hsec
      cases hsec
    · rw [hs] at hsec
      cases hsec
    · rw [hn] at hf
      cases hf
      rw [hr]
      exact ⟨rfl, _, rfl, rfl⟩
    · rw [hn] at hf
      cases hf

/-- Witness for C5: the default option and the secure sample option have
registered protocols; when wrapping is refused, the client assembler returns an
error that unwraps to the refusal; when certificates cannot be generated, the
server assembler returns an error that unwraps to that failure. -/
theorem build_failure_wraps_cause_witness :
    protocolFactoryMap.get NewDefaultOption.Protocol = some (.TBinaryProtocolFactory none) ∧
    protocolFactoryMap.get secureOption.Protocol = some (.TCompactProtocolFactory none) ∧
    ((NewThriftClient stormWorld "127.0.0.1:9090" NewDefaultOption).client = none ∧
      (NewThriftClient stormWorld "127.0.0.1:9090" NewDefaultOption).closer = none ∧
      ∃ r, (NewThriftClient stormWorld "127.0.0.1:9090" NewDefaultOption).err = some r ∧
        r.Unwrap = some (.errorString "wrap refused")) ∧
    ((NewThriftServer stormWorld "127.0.0.1:9090" secureOption ⟨0⟩).server = none ∧
      ∃ r, (NewThriftServer stormWorld "127.0.0.1:9090" secureOption ⟨0⟩).err = some r ∧
        r.Unwrap = some (.errorString "no entropy")) :=
  ⟨by decide, by decide,
   (build_failure_wraps_cause stormWorld "127.0.0.1:9090" NewDefaultOption ⟨0⟩
      (.TBinaryProtocolFactory none) (by decide)).1 (.errorString "wrap refused") rfl,
   (build_failure_wraps_cause stormWorld "127.0.0.1:9090" secureOption ⟨0⟩
      (.TCompactProtocolFactory none) (by decide)).2.2.1 rfl (.errorString "no entropy") rfl⟩

/-- C6. For a registered protocol, the transport `NewThriftClient` builds
and hands to the wrapping factory is a TLS socket to `addr` when `Secure` and a
plain socket to `addr` otherwise. `NewThriftServer` with `Secure` calls
`certsetup` first, never `NewTServerSocket`, and, when `certsetup` returns,
calls `NewTSSLServerSocket` on `addr` with the server TLS configuration
returned; its handle listens on what that call returned. Without `Secure` its
only call is `NewTServerSocket` on `addr` (so `certsetup` is not called), and
its handle listens on what that call returned. The calls are the same for any
two options with registered protocols that agree on `Secure`. -/
theorem base_transport_follows_secure (w : World) (addr : String) (opt : Option)
    (processor : TProcessor) (pf : TProtocolFactory)
    (hreg : protocolFactoryMap.get opt.Protocol = some pf) :
    (∃ f, (NewThriftClient w addr opt).calls.head? =
        some (Call.GetTransport f
          (if opt.Secure then NewTSSLSocketConf addr skipVerifyCfg
           else NewTSocketConf addr skipVerifyCfg))) ∧
    (∀ f b, Call.GetTransport f b ∈ (NewThriftClient w addr opt).calls →
        b = (if opt.Secure then NewTSSLSocketConf addr skipVerifyCfg
             else NewTSocketConf addr skipVerifyCfg)) ∧
    (opt.Secure = true →
      (NewThriftServer w addr opt processor).calls.head? = some Call.certsetup ∧
      (∀ a, Call.NewTServerSocket a ∉ (NewThriftServer w addr opt processor).calls) ∧
      (∀ sc cc ca, w.certsetup = .ok (sc, cc, ca) →
        (NewThriftServer w addr opt processor).calls =
          [Call.certsetup, Call.NewTSSLServerSocket addr sc] ∧
        ∀ srv, (NewThriftServer w addr opt processor).server = some srv →
          w.NewTSSLServerSocket addr sc = .ok srv.server.serverTransport)) ∧
    (opt.Secure = false →
      (NewThriftServer w addr opt processor).calls = [Call.NewTServerSocket addr] ∧
      Call.certsetup ∉ (NewThriftServer w addr opt processor).calls ∧
      ∀ srv, (NewThriftServer w addr opt processor).server = some srv →
        w.NewTServerSocket addr = .ok srv.server.serverTransport) ∧
    (∀ (other : Option) (pf1 : TProtocolFactory),
      protocolFactoryMap.get other.Protocol = some pf1 → other.Secure = opt.Secure →
      (NewThriftServer w addr other processor).calls =
        (NewThriftServer w addr opt processor).calls ∧
      ((NewThriftServer w addr other processor).server.map (·.server.serverTransport)) =
        ((NewThriftServer w addr opt processor).server.map (·.server.serverTransport)) ∧
      ∀ f1 b1 f b, Call.GetTransport f1 b1 ∈ (NewThriftClient w addr other).calls →
        Call.GetTransport f b ∈ (NewThriftClient w addr opt).calls → b1 = b) := by
  have hclient : ∀ (o : Option) (q : TProtocolFactory),
      protocolFactoryMap.get o.Protocol = some q →
      ∀ f b, Call.GetTransport f b ∈ (NewThriftClient w addr o).calls →
        b = specBase addr o.Secure := by
    intro o q hq f b hmem
    rcases client_cases w addr o with ⟨h, hr⟩ | ⟨pf1, e1, h, hg, hr⟩ |
      ⟨pf1, t, e1, h, hg, ho, hr⟩ | ⟨pf1, t, h, hg, ho, hr⟩
    all_goals rw [hr] at hmem
    all_goals simp only [List.mem_cons, List.mem_singleton, Call.GetTransport.injEq, reduceCtorEq,
          or_false, List.not_mem_nil] at hmem
    all_goals exact hmem.2
  have hserver : ∀ (o : Option) (q : TProtocolFactory),
      protocolFactoryMap.get o.Protocol = some q →
      (NewThriftServer w addr o processor).calls =
        (if o.Secure then
          match w.certsetup with
          | .error _ => [Call.certsetup]
          | .ok v => [Call.certsetup, Call.NewTSSLServerSocket addr v.1]
         else [Call.NewTServerSocket addr]) ∧
      (NewThriftServer w addr o processor).server.map (·.server.serverTransport) =
        (if o.Secure then
          match w.certsetup with
          | .error _ => none
          | .ok v =>
            match w.NewTSSLServerSocket addr v.1 with
            | .error _ => none
            | .ok t => some t
         else
          match w.NewTServerSocket addr with
          | .error _ => none
          | .ok t => some t) := by
    intro o q hq
    rcases server_cases w addr o processor with ⟨h, hr⟩ | ⟨pf, e1, h, hs, hc, hr⟩ |
      ⟨pf, sc, cc, ca, e1, h, hs, hc, hn, hr⟩ | ⟨pf, sc, cc, ca, t, h, hs, hc, hn, hr⟩ |
      ⟨pf, e1, h, hs, hn, hr⟩ | ⟨pf, t, h, hs, hn, hr⟩
    · simp [h] at hq
    · simp [hr, hs, hc]
    · simp [hr, hs, hc, hn]
    · simp [hr, hs, hc, hn, NewTSimpleServer4]
    · simp [hr, hs, hn]
    · simp [hr, hs, hn, NewTSimpleServer4]
  have hs1 := hserver opt pf hreg
  refine ⟨?_, hclient opt pf hreg, ?_, ?_, ?_⟩
  · rcases client_cases w addr opt with ⟨h, hr⟩ | ⟨pf1, e1, h, hg, hr⟩ |
      ⟨pf1, t, e1, h, hg, ho, hr⟩ | ⟨pf1, t, h, hg, ho, hr⟩
    · simp [h] at hreg
    all_goals exact ⟨_, by rw [hr]; rfl⟩
  · intro hsec
    rw [hsec] at hs1
    refine ⟨?_, ?_, ?_⟩
    · rw [hs1.1]
      cases w.certsetup <;> simp
    · intro a
      rw [hs1.1]
      cases w.certsetup <;> simp
    · intro sc cc ca hc
      rw [hc] at hs1
      refine ⟨by simpa using hs1.1, ?_⟩
      intro srv hsrv
      have h2 := hs1.2
      rw [hsrv] at h2
      cases hn : w.NewTSSLServerSocket addr sc with
      | error e => simp [hn] at h2
      | ok t => simp [hn] at h2; rw [h2]
  · intro hsec
    rw [hsec] at hs1
    refine ⟨by simpa using hs1.1, ?_, ?_⟩
    · rw [hs1.1]
      simp
    · intro srv hsrv
      have h2 := hs1.2
      rw [hsrv] at h2
      cases hn : w.NewTServerSocket addr with
      | error e => simp [hn] at h2
      | ok t => simp [hn] at h2; rw [h2]
  · intro other pf1 hother hsame
    have hs2 := hserver other pf1 hother
    refine ⟨?_, ?_, ?_⟩
    · rw [hs2.1, hs1.1, hsame]
    · rw [hs2.2, hs1.2, hsame]
    · intro f1 b1 f b h1 h2
      rw [hclient other pf1 hother f1 b1 h1, hclient opt pf hreg f b h2, hsame]

/-- Witness for C6: for the secure sample option, whose protocol is
registered, the client builds a TLS socket to the address. -/
theorem base_transport_follows_secure_witness :
    protocolFactoryMap.get secureOption.Protocol = some (.TCompactProtocolFactory none) ∧
    ∃ f, (NewThriftClient calmWorld "10.0.0.1:9090" secureOption).calls.head? =
      some (Call.GetTransport f
        (if secureOption.Secure then NewTSSLSocketConf "10.0.0.1:9090" skipVerifyCfg
         else NewTSocketConf "10.0.0.1:9090" skipVerifyCfg)) :=
  ⟨by decide,
   (base_transport_follows_secure calmWorld "10.0.0.1:9090" secureOption ⟨0⟩
      (.TCompactProtocolFactory none) (by decide)).1⟩

/-- C7. With `Secure` set, whatever socket `NewThriftClient` builds and hands
to the wrapping factory is a TLS socket to `addr` whose TLS configuration has
`InsecureSkipVerify` true, no root CA pool and no certificate; for a registered
protocol such a socket is built. `NewThriftClient` never calls `certsetup`, the
provisioner that generates the CA certificate. -/
theorem secure_client_skips_verification (w : World) (addr : String) (opt : Option)
    (hsec : opt.Secure = true) :
    (∀ f b, Call.GetTransport f b ∈ (NewThriftClient w addr opt).calls →
      ∃ tls, b = TTransport.TSSLSocket addr ⟨some tls⟩ ∧ tls.InsecureSkipVerify = true ∧
        tls.RootCAs = none ∧ tls.Certificates = []) ∧
    (∀ pf, protocolFactoryMap.get opt.Protocol = some pf →
      ∃ f b, (NewThriftClient w addr opt).calls.head? = some (Call.GetTransport f b)) ∧
    Call.certsetup ∉ (NewThriftClient w addr opt).calls := by
  rcases client_cases w addr opt with ⟨h, hr⟩ | ⟨pf1, e1, h, hg, hr⟩ |
      ⟨pf1, t, e1, h, hg, ho, hr⟩ | ⟨pf1, t, h, hg, ho, hr⟩
  all_goals rw [hr]
  all_goals simp [h, hsec, specBase, skipVerifyCfg]

/-- Witness for C7: the secure sample option has `Secure` set, and the client
built from it does not call `certsetup`. -/
theorem secure_client_skips_verification_witness :
    secureOption.Secure = true ∧
    Call.certsetup ∉ (NewThriftClient calmWorld "10.0.0.1:9090" secureOption).calls :=
  ⟨rfl, (secure_client_skips_verification calmWorld "10.0.0.1:9090" secureOption rfl).2.2⟩

/-- C8, as the code has it. When `NewThriftClient` succeeds, its calls were,
in this order: `GetTransport` on the base transport, giving `t`; `Open` on `t`;
`GetProtocol` of the looked-up protocol factory on `t`, twice. The client is
built from those two codecs, and the closer returned is `t`, what the wrapping
factory returned. Whether or not it succeeds, `NewThriftClient` never calls
`Close`. With the factories of the Thrift runtime, `t` is the composed chain
around the base socket, and it is the base socket itself exactly when neither
`Buffered` nor `Framed` is set. -/
theorem client_codecs_share_opened_transport (w : World) (addr : String) (opt : Option) :
    ((NewThriftClient w addr opt).err = none →
      ∃ pf f base t, protocolFactoryMap.get opt.Protocol = some pf ∧
        w.GetTransport f base = .ok t ∧ w.Open t = none ∧
        (NewThriftClient w addr opt).calls =
          [Call.GetTransport f base, Call.Open t, Call.GetProtocol pf t, Call.GetProtocol pf t] ∧
        (NewThriftClient w addr opt).client =
          some (NewTStandardClient (GetProtocol pf t) (GetProtocol pf t)) ∧
        (NewThriftClient w addr opt).closer = some t) ∧
    (∀ t, Call.Close t ∉ (NewThriftClient w addr opt).calls) ∧
    (runtimeWrapping w → (NewThriftClient w addr opt).err = none →
      (NewThriftClient w addr opt).closer =
        some (wrapBy (specChain opt.Buffered opt.Framed) (specBase addr opt.Secure)) ∧
      (NewThriftClient w addr opt).calls.head? =
        some (Call.GetTransport (specChain opt.Buffered opt.Framed) (specBase addr opt.Secure)) ∧
      ((NewThriftClient w addr opt).closer = some (specBase addr opt.Secure) ↔
        (opt.Buffered = false ∧ opt.Framed = false))) := by
  rcases client_cases w addr opt with ⟨h, hr⟩ | ⟨pf1, e1, h, hg, hr⟩ |
      ⟨pf1, t, e1, h, hg, ho, hr⟩ | ⟨pf1, t, h, hg, ho, hr⟩
  · simp [hr]
  · simp [hr]
  · simp [hr]
  · rw [hr]
    refine ⟨fun _ => ⟨pf1, _, _, t, h, hg, ho, rfl, rfl, rfl⟩, by simp, ?_⟩
    intro hw _
    rw [hw] at hg
    cases hg
    refine ⟨rfl, rfl, ?_⟩
    cases opt.Buffered <;> cases opt.Framed <;> cases opt.Secure <;>
      simp [specChain, specBase, wrapBy]

/-- Witness for C8: in a world where every call succeeds and wrapping is that
of the runtime, the client built from the default option is returned together
with the buffered transport, and its two codecs were built on that transport
after it was opened. -/
theorem client_codecs_share_opened_transport_witness :
    (NewThriftClient calmWorld "127.0.0.1:9090" NewDefaultOption).err = none ∧
    (∃ pf f base t, protocolFactoryMap.get NewDefaultOption.Protocol = some pf ∧
      calmWorld.GetTransport f base = .ok t ∧ calmWorld.Open t = none ∧
      (NewThriftClient calmWorld "127.0.0.1:9090" NewDefaultOption).calls =
        [Call.GetTransport f base, Call.Open t, Call.GetProtocol pf t, Call.GetProtocol pf t] ∧
      (NewThriftClient calmWorld "127.0.0.1:9090" NewDefaultOption).client =
        some (NewTStandardClient (GetProtocol pf t) (GetProtocol pf t)) ∧
      (NewThriftClient calmWorld "127.0.0.1:9090" NewDefaultOption).closer = some t) ∧
    (NewThriftClient calmWorld "127.0.0.1:9090" NewDefaultOption).closer =
      some (.TBufferedTransport (.TSocket "127.0.0.1:9090" skipVerifyCfg) 8192) :=
  ⟨by decide,
   (client_codecs_share_opened_transport calmWorld "127.0.0.1:9090" NewDefaultOption).1
     (by decide),
   ((client_codecs_share_opened_transport calmWorld "127.0.0.1:9090" NewDefaultOption).2.2
     (fun _ _ => rfl) (by decide)).1⟩

/-- C8, counterexample. With neither `Buffered` nor `Framed`, the composed
factory is the identity factory, which returns the transport it is given: the
client is built, and the closer returned is the base socket, the very value
handed to `GetTransport`. -/
theorem closer_is_base_socket :
    (NewThriftClient calmWorld "127.0.0.1:9090" ⟨BINARY, false, false, false⟩).err = none ∧
    (NewThriftClient calmWorld "127.0.0.1:9090" ⟨BINARY, false, false, false⟩).calls.head? =
      some (Call.GetTransport NewTTransportFactory
        (NewTSocketConf "127.0.0.1:9090" skipVerifyCfg)) ∧
    (NewThriftClient calmWorld "127.0.0.1:9090" ⟨BINARY, false, false, false⟩).closer =
      some (NewTSocketConf "127.0.0.1:9090" skipVerifyCfg) := by
  decide

/-! ## `ThriftServer.Start`: theorems -/

/-- C3. In every execution of `Start`, under any schedule of the caller's
goroutine, the background task, the return of `Serve` and the caller's
receives: no goroutine panics (there is no send on, and no second close of, a
closed channel); the channel is closed at most once; a value is sent only if it
is the error `Serve` returned; no send follows the close; the channel has
capacity 1, holds at most one value and is closed exactly when the task has
finished; the values the caller has received followed by the values in the
channel are nothing before the task has passed its `if err != nil` statement,
and afterwards the error `Serve` returned, if any, and nothing otherwise. When
the task reaches the send, the channel is empty and nothing has been received,
and the send goes through at once, leaving in the channel exactly the error
`Serve` returned (nothing if it returned nil). When the task has finished, its
events were, in order, the start line, the call and return of `Serve`, the send
of the error if `Serve` returned one (no send otherwise), the stop line and the
close, the close having happened exactly once and the channel being empty if
`Serve` returned nil. Every execution can be carried on until the task has
finished, and then a receive by the caller leaves it with exactly the error
`Serve` returned: it suffices that `Start` and the task are scheduled and that
`Serve` returns. -/
theorem start_closes_channel_exactly_once (w : World) (server : ThriftServer)
    (sched : List Actor) :
    (exec w server sched StartState.entry).panicked = false ∧
    (exec w server sched StartState.entry).trace.count Event.close ≤ 1 ∧
    (∀ e, Event.send e ∈ (exec w server sched StartState.entry).trace →
      w.Serve server.server = some e) ∧
    (∀ l1 l2, (exec w server sched StartState.entry).trace = l1 ++ Event.close :: l2 →
      ∀ e, Event.send e ∉ l2) ∧
    (∀ ch, (exec w server sched StartState.entry).returnCh = some ch →
      ch.cap = 1 ∧ ch.buf.length ≤ 1 ∧
      (ch.closed = true ↔ (exec w server sched StartState.entry).taskPc = some .done) ∧
      (((exec w server sched StartState.entry).taskPc = some .atPrintln ∨
        (exec w server sched StartState.entry).taskPc = some .atClose ∨
        (exec w server sched StartState.entry).taskPc = some .done) →
        (exec w server sched StartState.entry).received ++ ch.buf =
          (w.Serve server.server).toList) ∧
      (¬ ((exec w server sched StartState.entry).taskPc = some .atPrintln ∨
        (exec w server sched StartState.entry).taskPc = some .atClose ∨
        (exec w server sched StartState.entry).taskPc = some .done) →
        (exec w server sched StartState.entry).received ++ ch.buf = [])) ∧
    ((exec w server sched StartState.entry).taskPc = some .atIfErr →
      (exec w server sched StartState.entry).received = [] ∧
      ∃ s1 ch1, step w server .task (exec w server sched StartState.entry) = some s1 ∧
        s1.taskPc = some .atPrintln ∧ s1.panicked = false ∧
        s1.returnCh = some ch1 ∧ ch1.buf = (w.Serve server.server).toList ∧
        s1.received = []) ∧
    ((exec w server sched StartState.entry).taskPc = some .done →
      taskEvents (exec w server sched StartState.entry).trace =
        (match w.Serve server.server with
         | some err =>
           [.print (startLine server.addr), .serveCall, .serveReturn (some err), .send err,
             .print stopLine, .close]
         | none =>
           [.print (startLine server.addr), .serveCall, .serveReturn none, .print stopLine,
             .close]) ∧
      (exec w server sched StartState.entry).trace.count Event.close = 1 ∧
      step w server .task (exec w server sched StartState.entry) = none ∧
      ∃ buf, (exec w server sched StartState.entry).returnCh = some ⟨1, buf, true⟩ ∧
        (exec w server sched StartState.entry).received ++ buf =
          (w.Serve server.server).toList ∧
        (w.Serve server.server = none → buf = [])) ∧
    (exec w server (sched ++ [.main, .main, .task, .task, .runtime, .task, .task, .task])
      StartState.entry).taskPc = some .done ∧
    (exec w server
      (sched ++ [.main, .main, .main, .task, .task, .runtime, .task, .task, .task, .caller])
      StartState.entry).received = (w.Serve server.server).toList := by
  have hinv := exec_inv w server sched StartState.entry (inv_entry w server)
  refine ⟨hinv.1, count_close_le w server _ hinv, send_mem w server _ hinv, ?_, ?_,
    send_enabled w server _ hinv, ?_, ?_, ?_⟩
  · intro l1 l2 hsplit e hmem
    have h := nothing_after_close w server _ hinv l1 l2 hsplit
    have h1 : Event.send e ∈ taskEvents l2 := List.mem_filter.2 ⟨hmem, rfl⟩
    rw [h] at h1
    cases h1
  · intro ch hch
    obtain ⟨h1, h2, h3, h4⟩ := chan_state w server _ hinv ch hch
    refine ⟨h1, h2, h3, ?_, ?_⟩
    · intro hpc
      rw [h4]
      rcases hpc with hpc | hpc | hpc <;> simp [hpc, afterIfErr]
    · intro hpc
      rw [h4]
      have : afterIfErr (exec w server sched StartState.entry).taskPc = false := by
        cases hq : (exec w server sched StartState.entry).taskPc with
        | none => rfl
        | some pc =>
          rw [hq] at hpc
          cases pc <;> simp [afterIfErr] at hpc ⊢
      simp [this]
  · intro hpc
    have hd := done_state w server _ hinv hpc
    have htr := hinv.2.1
    rw [hpc, taskProgress_done, taskProgram_cases] at htr
    refine ⟨htr, ?_, hd.1, ?_⟩
    · rw [count_close_trace, htr]
      cases w.Serve server.server <;> simp [List.count_cons]
    · obtain ⟨buf, hch, hbuf⟩ := hd.2
      refine ⟨buf, hch, hbuf, ?_⟩
      intro hs
      rw [hs] at hbuf
      simp at hbuf
      exact hbuf.2
  · rw [exec_append]
    exact finish w server _ hinv
  · rw [exec_append]
    exact finish_received w server _ hinv

/-- Witness for C3: `Serve` fails with `accept failed`; under a schedule in
which `Start` returns while the task is still running and the caller receives
at the end, the task finishes having sent that error once and closed the
channel once, and the error is what the caller has received. -/
theorem start_closes_channel_exactly_once_witness :
    (exec stormWorld sampleServer
      [.main, .main, .task, .main, .task, .runtime, .task, .task, .task, .caller]
      StartState.entry).taskPc = some .done ∧
    taskEvents (exec stormWorld sampleServer
      [.main, .main, .task, .main, .task, .runtime, .task, .task, .task, .caller]
      StartState.entry).trace =
      [.print (startLine sampleServer.addr), .serveCall,
        .serveReturn (some (.errorString "accept failed")), .send (.errorString "accept failed"),
        .print stopLine, .close] ∧
    (exec stormWorld sampleServer
      [.main, .main, .task, .main, .task, .runtime, .task, .task, .task, .caller]
      StartState.entry).received = [.errorString "accept failed"] :=
  ⟨by decide,
   ((start_closes_channel_exactly_once stormWorld sampleServer
      [.main, .main, .task, .main, .task, .runtime, .task, .task, .task, .caller]).2.2.2.2.2.2.1
      (by decide)).1,
   by decide⟩

/-- C9, as the code has it. In every execution of `Start`, the start line
naming the configured address stands in the trace before the call of `Serve`:
the background task prints it as its first statement. (The line is printed by
the background task, not by `Start` itself; `Start` may return before it.) -/
theorem start_line_precedes_serve (w : World) (server : ThriftServer) (sched : List Actor)
    (l1 l2 : List Event)
    (hsplit : (exec w server sched StartState.entry).trace = l1 ++ Event.serveCall :: l2) :
    Event.print (startLine server.addr) ∈ l1 :=
  start_line_first w server _ (exec_inv w server sched StartState.entry (inv_entry w server))
    l1 l2 hsplit

/-- Witness for C9: once the task has called `Serve`, the events before that
call contain the start line. -/
theorem start_line_precedes_serve_witness :
    (exec calmWorld sampleServer [.main, .main, .task, .task] StartState.entry).trace =
      [.makeChan 1, .go, .print "Starting Thrift server... on 127.0.0.1:9090 \n"] ++
        Event.serveCall :: [] ∧
    Event.print (startLine sampleServer.addr) ∈
      [Event.makeChan 1, .go, .print "Starting Thrift server... on 127.0.0.1:9090 \n"] :=
  ⟨by decide,
   start_line_precedes_serve calmWorld sampleServer [.main, .main, .task, .task]
     [.makeChan 1, .go, .print "Starting Thrift server... on 127.0.0.1:9090 \n"] []
     (by decide)⟩

/-- C9, counterexample. Under the schedule in which the caller's goroutine
runs `Start` to its return before the background task is scheduled, `Start` has
returned the channel and nothing has been printed. -/
theorem start_returns_before_start_line :
    (exec calmWorld sampleServer [.main, .main, .main] StartState.entry).mainPc = .returned ∧
    (exec calmWorld sampleServer [.main, .main, .main] StartState.entry).trace =
      [.makeChan 1, .go, .returned] ∧
    Event.print (startLine sampleServer.addr) ∉
      (exec calmWorld sampleServer [.main, .main, .main] StartState.entry).trace := by
  decide

end Thriftlib
